import Mathlib

/-
Verification of the librarian MIDI pedal control plane.

Shallow embedding of src/tauri/src/midi (manager, pedal profiles, identity
parsing) and of the Microcosm branch of src/tauri/src/commands.rs
save_preset_to_bank. Rust u8 values are modelled as Nat (with explicit
wrapping where u8 overflow matters), HashMap-valued CC maps as association
lists in source insertion order, and the MIDI transport as an explicit
success oracle passed to each operation.
-/

set_option maxRecDepth 4000

-- ===========================================================================
-- Error type (src/tauri/src/midi/error.rs)
-- ===========================================================================

/-- MidiError from error.rs, with the payload strings kept. -/
inductive MidiErr where
  | NotConnected (d : String)
  | InvalidValue (expected : String) (actual : Nat)
  | CommunicationError (m : String)
  | DeviceNotFound (d : String)
  | ConnectionFailed (m : String)
  | SendFailed (m : String)
  | PortError (m : String)
  | AlreadyConnected (d : String)
  | InvalidChannel (c : Nat)
  | Other (m : String)
deriving DecidableEq, Repr

-- ===========================================================================
-- Microcosm value objects (pedals/microcosm/types.rs, mapper.rs)
-- ===========================================================================

inductive SubdivisionValue where
  | QuarterNote | HalfNote | Tap | Double | Quadruple | Octuple
deriving DecidableEq, Repr, Fintype

def SubdivisionValue.to_cc_value : SubdivisionValue → Nat
  | .QuarterNote => 0
  | .HalfNote => 1
  | .Tap => 2
  | .Double => 3
  | .Quadruple => 4
  | .Octuple => 5

inductive WaveformShape where
  | Square | Ramp | Triangle | Saw
deriving DecidableEq, Repr, Fintype

def WaveformShape.to_cc_value : WaveformShape → Nat
  | .Square => 16
  | .Ramp => 48
  | .Triangle => 80
  | .Saw => 112

/-- from_cc_value in mapper.rs: 0..=31 Square, 32..=63 Ramp, 64..=95 Triangle,
catch-all Saw. -/
def WaveformShape.from_cc_value (value : Nat) : WaveformShape :=
  if value ≤ 31 then .Square
  else if value ≤ 63 then .Ramp
  else if value ≤ 95 then .Triangle
  else .Saw

inductive PlaybackDirection where
  | Forward | Reverse
deriving DecidableEq, Repr, Fintype

def PlaybackDirection.to_cc_value : PlaybackDirection → Nat
  | .Forward => 0
  | .Reverse => 127

def PlaybackDirection.from_cc_value (value : Nat) : PlaybackDirection :=
  if value < 64 then .Forward else .Reverse

inductive LooperRouting where
  | PostFX | PreFX
deriving DecidableEq, Repr, Fintype

def LooperRouting.to_cc_value : LooperRouting → Nat
  | .PostFX => 0
  | .PreFX => 127

def LooperRouting.from_cc_value (value : Nat) : LooperRouting :=
  if value < 64 then .PostFX else .PreFX

inductive EffectType where
  | Mosaic | Seq | Glide | Blocks | Interrupt | Arp
  | Haze | Tunnel | Strum | Pattern | Warp
deriving DecidableEq, Repr, Fintype

inductive EffectVariation where
  | A | B | C | D
deriving DecidableEq, Repr, Fintype

def EffectVariation.from_offset (offset : Nat) : Option EffectVariation :=
  match offset with
  | 0 => some .A
  | 1 => some .B
  | 2 => some .C
  | 3 => some .D
  | _ => none

/-- EffectType::from_program in types.rs (match on program / 4, variation from
program % 4). -/
def EffectType.from_program (program : Nat) : Option (EffectType × EffectVariation) :=
  let effect : Option EffectType :=
    match program / 4 with
    | 0 => some .Arp
    | 1 => some .Interrupt
    | 2 => some .Blocks
    | 3 => some .Glide
    | 4 => some .Seq
    | 5 => some .Mosaic
    | 6 => some .Haze
    | 7 => some .Tunnel
    | 8 => some .Strum
    | 9 => some .Pattern
    | 10 => some .Warp
    | _ => none
  match effect with
  | none => none
  | some e =>
    match EffectVariation.from_offset (program % 4) with
    | none => none
    | some v => some (e, v)

-- ===========================================================================
-- Gen Loss MKII banded value objects (pedals/gen_loss_mkii/types.rs)
-- ===========================================================================

inductive SweepDirection where
  | Bottom | Top
deriving DecidableEq, Repr, Fintype

def SweepDirection.to_cc_value : SweepDirection → Nat
  | .Bottom => 0
  | .Top => 127

def SweepDirection.from_cc_value (value : Nat) : SweepDirection :=
  if value < 64 then .Bottom else .Top

inductive Polarity where
  | Forward | Reverse
deriving DecidableEq, Repr, Fintype

def Polarity.to_cc_value : Polarity → Nat
  | .Forward => 0
  | .Reverse => 127

def Polarity.from_cc_value (value : Nat) : Polarity :=
  if value < 64 then .Forward else .Reverse

inductive DspBypassMode where
  | TrueBypass | DspBypass
deriving DecidableEq, Repr, Fintype

def DspBypassMode.to_cc_value : DspBypassMode → Nat
  | .TrueBypass => 0
  | .DspBypass => 127

def DspBypassMode.from_cc_value (value : Nat) : DspBypassMode :=
  if value < 64 then .TrueBypass else .DspBypass

inductive TapeModel where
  | None | CPR3300Gen1 | CPR3300Gen2 | CPR3300Gen3 | PortamaxRT | PortamaxHT
  | CAM8 | DictatronEX | DictatronIN | Fishy60 | MSWalker | AMU2 | MPEX
deriving DecidableEq, Repr, Fintype

def TapeModel.to_cc_value : TapeModel → Nat
  | .None => 0
  | .CPR3300Gen1 => 15
  | .CPR3300Gen2 => 24
  | .CPR3300Gen3 => 33
  | .PortamaxRT => 43
  | .PortamaxHT => 53
  | .CAM8 => 62
  | .DictatronEX => 72
  | .DictatronIN => 82
  | .Fishy60 => 91
  | .MSWalker => 101
  | .AMU2 => 111
  | .MPEX => 127

def TapeModel.from_cc_value (value : Nat) : TapeModel :=
  if value ≤ 7 then .None
  else if value ≤ 19 then .CPR3300Gen1
  else if value ≤ 28 then .CPR3300Gen2
  else if value ≤ 38 then .CPR3300Gen3
  else if value ≤ 48 then .PortamaxRT
  else if value ≤ 57 then .PortamaxHT
  else if value ≤ 67 then .CAM8
  else if value ≤ 77 then .DictatronEX
  else if value ≤ 86 then .DictatronIN
  else if value ≤ 96 then .Fishy60
  else if value ≤ 106 then .MSWalker
  else if value ≤ 119 then .AMU2
  else .MPEX

-- ===========================================================================
-- Chroma Console value objects (pedals/chroma_console/types.rs)
-- ===========================================================================

/-- CharacterModule from chroma_console/types.rs (renamed: Mathlib already
declares a CharacterModule). -/
inductive ChromaCharacterModule where
  | Drive | Sweeten | Fuzz | Howl | Swell | Off
deriving DecidableEq, Repr, Fintype

def ChromaCharacterModule.to_cc_value : ChromaCharacterModule → Nat
  | .Drive => 10
  | .Sweeten => 32
  | .Fuzz => 54
  | .Howl => 76
  | .Swell => 98
  | .Off => 120

def ChromaCharacterModule.from_cc_value (value : Nat) : ChromaCharacterModule :=
  if value ≤ 21 then .Drive
  else if value ≤ 43 then .Sweeten
  else if value ≤ 65 then .Fuzz
  else if value ≤ 87 then .Howl
  else if value ≤ 109 then .Swell
  else .Off

inductive MovementModule where
  | Doubler | Vibrato | Phaser | Tremolo | Pitch | Off
deriving DecidableEq, Repr, Fintype

def MovementModule.to_cc_value : MovementModule → Nat
  | .Doubler => 10
  | .Vibrato => 32
  | .Phaser => 54
  | .Tremolo => 76
  | .Pitch => 98
  | .Off => 120

def MovementModule.from_cc_value (value : Nat) : MovementModule :=
  if value ≤ 21 then .Doubler
  else if value ≤ 43 then .Vibrato
  else if value ≤ 65 then .Phaser
  else if value ≤ 87 then .Tremolo
  else if value ≤ 109 then .Pitch
  else .Off

inductive DiffusionModule where
  | Cascade | Reels | Space | Collage | Reverse | Off
deriving DecidableEq, Repr, Fintype

def DiffusionModule.to_cc_value : DiffusionModule → Nat
  | .Cascade => 10
  | .Reels => 32
  | .Space => 54
  | .Collage => 76
  | .Reverse => 98
  | .Off => 120

def DiffusionModule.from_cc_value (value : Nat) : DiffusionModule :=
  if value ≤ 21 then .Cascade
  else if value ≤ 43 then .Reels
  else if value ≤ 65 then .Space
  else if value ≤ 87 then .Collage
  else if value ≤ 109 then .Reverse
  else .Off

inductive TextureModule where
  | Filter | Squash | Cassette | Broken | Interference | Off
deriving DecidableEq, Repr, Fintype

def TextureModule.to_cc_value : TextureModule → Nat
  | .Filter => 10
  | .Squash => 32
  | .Cassette => 54
  | .Broken => 76
  | .Interference => 98
  | .Off => 120

def TextureModule.from_cc_value (value : Nat) : TextureModule :=
  if value ≤ 21 then .Filter
  else if value ≤ 43 then .Squash
  else if value ≤ 65 then .Cassette
  else if value ≤ 87 then .Broken
  else if value ≤ 109 then .Interference
  else .Off

/-- Overall bypass state (CC 91 standard or CC 92 dual bypass). -/
inductive BypassState where
  | Bypass | Engaged | DualBypass
deriving DecidableEq, Repr, Fintype

inductive GestureMode where
  | Play | Record
deriving DecidableEq, Repr, Fintype

def GestureMode.to_cc_value : GestureMode → Nat
  | .Play => 0
  | .Record => 127

def GestureMode.from_cc_value (value : Nat) : GestureMode :=
  if value < 64 then .Play else .Record

inductive CaptureMode where
  | Stop | Play | Record
deriving DecidableEq, Repr, Fintype

def CaptureMode.to_cc_value : CaptureMode → Nat
  | .Stop => 21
  | .Play => 65
  | .Record => 108

def CaptureMode.from_cc_value (value : Nat) : CaptureMode :=
  if value ≤ 43 then .Stop
  else if value ≤ 87 then .Play
  else .Record

inductive CaptureRouting where
  | PostFx | PreFx
deriving DecidableEq, Repr, Fintype

def CaptureRouting.to_cc_value : CaptureRouting → Nat
  | .PostFx => 0
  | .PreFx => 127

def CaptureRouting.from_cc_value (value : Nat) : CaptureRouting :=
  if value < 64 then .PostFx else .PreFx

inductive FilterMode where
  | Lpf | Tilt | Hpf
deriving DecidableEq, Repr, Fintype

def FilterMode.to_cc_value : FilterMode → Nat
  | .Lpf => 21
  | .Tilt => 65
  | .Hpf => 108

def FilterMode.from_cc_value (value : Nat) : FilterMode :=
  if value ≤ 43 then .Lpf
  else if value ≤ 87 then .Tilt
  else .Hpf

inductive CalibrationLevel where
  | Low | Medium | High | VeryHigh
deriving DecidableEq, Repr, Fintype

def CalibrationLevel.to_cc_value : CalibrationLevel → Nat
  | .Low => 15
  | .Medium => 47
  | .High => 79
  | .VeryHigh => 111

def CalibrationLevel.from_cc_value (value : Nat) : CalibrationLevel :=
  if value ≤ 31 then .Low
  else if value ≤ 63 then .Medium
  else if value ≤ 95 then .High
  else .VeryHigh

-- ===========================================================================
-- Microcosm state and parameters (pedals/microcosm/types.rs, mapper.rs, mod.rs)
-- ===========================================================================

/-- MicrocosmState; Rust u8 fields become Nat. -/
structure MicrocosmState where
  current_effect : EffectType
  current_variation : EffectVariation
  subdivision : SubdivisionValue
  time : Nat
  hold_sampler : Bool
  activity : Nat
  repeats : Nat
  shape : WaveformShape
  frequency : Nat
  depth : Nat
  cutoff : Nat
  resonance : Nat
  mix : Nat
  volume : Nat
  reverse_effect : Bool
  bypass : Bool
  space : Nat
  reverb_time : Nat
  loop_level : Nat
  looper_speed : Nat
  looper_speed_stepped : SubdivisionValue
  fade_time : Nat
  looper_enabled : Bool
  playback_direction : PlaybackDirection
  routing : LooperRouting
  looper_only : Bool
  burst_mode : Bool
  quantized : Bool
deriving DecidableEq, Repr

/-- Default::default() for MicrocosmState. -/
def MicrocosmState.default : MicrocosmState where
  current_effect := .Mosaic
  current_variation := .A
  subdivision := .QuarterNote
  time := 64
  hold_sampler := false
  activity := 64
  repeats := 64
  shape := .Square
  frequency := 64
  depth := 64
  cutoff := 127
  resonance := 0
  mix := 64
  volume := 100
  reverse_effect := false
  bypass := false
  space := 0
  reverb_time := 0
  loop_level := 100
  looper_speed := 64
  looper_speed_stepped := .QuarterNote
  fade_time := 64
  looper_enabled := false
  playback_direction := .Forward
  routing := .PostFX
  looper_only := false
  burst_mode := false
  quantized := false

inductive MicrocosmParameter where
  | Subdivision (v : SubdivisionValue)
  | Time (v : Nat)
  | HoldSampler (v : Bool)
  | TapTempo
  | Activity (v : Nat)
  | Repeats (v : Nat)
  | Shape (v : WaveformShape)
  | Frequency (v : Nat)
  | Depth (v : Nat)
  | Cutoff (v : Nat)
  | Resonance (v : Nat)
  | Mix (v : Nat)
  | Volume (v : Nat)
  | ReverseEffect (v : Bool)
  | Bypass (v : Bool)
  | Space (v : Nat)
  | ReverbTime (v : Nat)
  | LoopLevel (v : Nat)
  | LooperSpeed (v : Nat)
  | LooperSpeedStepped (v : SubdivisionValue)
  | FadeTime (v : Nat)
  | LooperEnabled (v : Bool)
  | PlaybackDirection (v : PlaybackDirection)
  | Routing (v : LooperRouting)
  | LooperOnly (v : Bool)
  | BurstMode (v : Bool)
  | Quantized (v : Bool)
  | LooperRecord
  | LooperPlay
  | LooperOverdub
  | LooperStop
  | LooperErase
  | LooperUndo
  | PresetCopy
  | PresetSave
deriving DecidableEq, Repr

def MicrocosmParameter.cc_number : MicrocosmParameter → Nat
  | .Subdivision _ => 5
  | .Time _ => 10
  | .HoldSampler _ => 48
  | .TapTempo => 93
  | .Activity _ => 6
  | .Repeats _ => 11
  | .Shape _ => 7
  | .Frequency _ => 14
  | .Depth _ => 19
  | .Cutoff _ => 8
  | .Resonance _ => 15
  | .Mix _ => 9
  | .Volume _ => 16
  | .ReverseEffect _ => 47
  | .Bypass _ => 102
  | .Space _ => 12
  | .ReverbTime _ => 20
  | .LoopLevel _ => 13
  | .LooperSpeed _ => 17
  | .LooperSpeedStepped _ => 18
  | .FadeTime _ => 21
  | .LooperEnabled _ => 22
  | .PlaybackDirection _ => 23
  | .Routing _ => 24
  | .LooperOnly _ => 25
  | .BurstMode _ => 26
  | .Quantized _ => 27
  | .LooperRecord => 28
  | .LooperPlay => 29
  | .LooperOverdub => 30
  | .LooperStop => 31
  | .LooperErase => 34
  | .LooperUndo => 35
  | .PresetCopy => 45
  | .PresetSave => 46

def MicrocosmParameter.cc_value : MicrocosmParameter → Nat
  | .Time v | .Activity v | .Repeats v | .Frequency v | .Depth v
  | .Cutoff v | .Resonance v | .Mix v | .Volume v | .Space v
  | .ReverbTime v | .LoopLevel v | .LooperSpeed v | .FadeTime v => v
  | .Subdivision s | .LooperSpeedStepped s => s.to_cc_value
  | .Shape s => s.to_cc_value
  | .PlaybackDirection d => d.to_cc_value
  | .Routing r => r.to_cc_value
  | .HoldSampler b | .Bypass b | .ReverseEffect b | .LooperEnabled b
  | .LooperOnly b | .BurstMode b | .Quantized b => if b then 127 else 0
  | .TapTempo | .LooperRecord | .LooperPlay | .LooperOverdub
  | .LooperStop | .LooperErase | .LooperUndo | .PresetCopy | .PresetSave => 127

/-- Microcosm aggregate (mod.rs): shadow state plus the MIDI channel. -/
structure Microcosm where
  state : MicrocosmState
  midi_channel : Nat
deriving DecidableEq, Repr

def Microcosm.new (midi_channel : Nat) : Microcosm :=
  ⟨MicrocosmState.default, midi_channel⟩

/-- Microcosm::update_state (mod.rs); trigger actions fall to the catch-all
arm and leave the state unchanged. -/
def Microcosm.update_state (m : Microcosm) (param : MicrocosmParameter) : Microcosm :=
  match param with
  | .Subdivision v => { m with state.subdivision := v }
  | .Time v => { m with state.time := v }
  | .HoldSampler v => { m with state.hold_sampler := v }
  | .Activity v => { m with state.activity := v }
  | .Repeats v => { m with state.repeats := v }
  | .Shape v => { m with state.shape := v }
  | .Frequency v => { m with state.frequency := v }
  | .Depth v => { m with state.depth := v }
  | .Cutoff v => { m with state.cutoff := v }
  | .Resonance v => { m with state.resonance := v }
  | .Mix v => { m with state.mix := v }
  | .Volume v => { m with state.volume := v }
  | .ReverseEffect v => { m with state.reverse_effect := v }
  | .Bypass v => { m with state.bypass := v }
  | .Space v => { m with state.space := v }
  | .ReverbTime v => { m with state.reverb_time := v }
  | .LoopLevel v => { m with state.loop_level := v }
  | .LooperSpeed v => { m with state.looper_speed := v }
  | .LooperSpeedStepped v => { m with state.looper_speed_stepped := v }
  | .FadeTime v => { m with state.fade_time := v }
  | .LooperEnabled v => { m with state.looper_enabled := v }
  | .PlaybackDirection v => { m with state.playback_direction := v }
  | .Routing v => { m with state.routing := v }
  | .LooperOnly v => { m with state.looper_only := v }
  | .BurstMode v => { m with state.burst_mode := v }
  | .Quantized v => { m with state.quantized := v }
  | _ => m

/-- Microcosm::set_current_preset (mod.rs). -/
def Microcosm.set_current_preset (m : Microcosm) (program : Nat) : Microcosm :=
  match EffectType.from_program program with
  | some (effect, variation) =>
      { m with state.current_effect := effect, state.current_variation := variation }
  | none => m

/-- MicrocosmState::to_cc_map (mapper.rs), as an association list in the
source insertion order. -/
def MicrocosmState.to_cc_map (s : MicrocosmState) : List (Nat × Nat) :=
  [ (5, s.subdivision.to_cc_value)
  , (10, s.time)
  , (48, if s.hold_sampler then 127 else 0)
  , (6, s.activity)
  , (11, s.repeats)
  , (7, s.shape.to_cc_value)
  , (14, s.frequency)
  , (19, s.depth)
  , (8, s.cutoff)
  , (15, s.resonance)
  , (9, s.mix)
  , (16, s.volume)
  , (47, if s.reverse_effect then 127 else 0)
  , (102, if s.bypass then 127 else 0)
  , (12, s.space)
  , (20, s.reverb_time)
  , (13, s.loop_level)
  , (17, s.looper_speed)
  , (18, s.looper_speed_stepped.to_cc_value)
  , (21, s.fade_time)
  , (22, if s.looper_enabled then 127 else 0)
  , (23, s.playback_direction.to_cc_value)
  , (24, s.routing.to_cc_value)
  , (25, if s.looper_only then 127 else 0)
  , (26, if s.burst_mode then 127 else 0)
  , (27, if s.quantized then 127 else 0) ]

def Microcosm.state_as_cc_map (m : Microcosm) : List (Nat × Nat) :=
  m.state.to_cc_map

-- ===========================================================================
-- Chroma Console state and mapper (pedals/chroma_console)
-- ===========================================================================

structure ChromaConsoleState where
  tilt : Nat
  rate : Nat
  time : Nat
  mix : Nat
  amount_character : Nat
  amount_movement : Nat
  amount_diffusion : Nat
  amount_texture : Nat
  sensitivity : Nat
  drift_movement : Nat
  drift_diffusion : Nat
  output_level : Nat
  effect_vol_character : Nat
  effect_vol_movement : Nat
  effect_vol_diffusion : Nat
  effect_vol_texture : Nat
  character_module : ChromaCharacterModule
  movement_module : MovementModule
  diffusion_module : DiffusionModule
  texture_module : TextureModule
  bypass_state : BypassState
  character_bypass : Bool
  movement_bypass : Bool
  diffusion_bypass : Bool
  texture_bypass : Bool
  gesture_mode : GestureMode
  capture_mode : CaptureMode
  capture_routing : CaptureRouting
  filter_mode : FilterMode
  calibration_level : CalibrationLevel
deriving DecidableEq, Repr

def ChromaConsoleState.default : ChromaConsoleState where
  tilt := 64
  rate := 64
  time := 64
  mix := 64
  amount_character := 64
  amount_movement := 64
  amount_diffusion := 64
  amount_texture := 64
  sensitivity := 64
  drift_movement := 64
  drift_diffusion := 64
  output_level := 100
  effect_vol_character := 100
  effect_vol_movement := 100
  effect_vol_diffusion := 100
  effect_vol_texture := 100
  character_module := .Off
  movement_module := .Off
  diffusion_module := .Off
  texture_module := .Off
  bypass_state := .Bypass
  character_bypass := false
  movement_bypass := false
  diffusion_bypass := false
  texture_bypass := false
  gesture_mode := .Play
  capture_mode := .Stop
  capture_routing := .PostFx
  filter_mode := .Lpf
  calibration_level := .Medium

/-- CC constants from chroma_console/mapper.rs. -/
def CC_TILT : Nat := 64
def CC_RATE : Nat := 66
def CC_TIME : Nat := 68
def CC_MIX : Nat := 70
def CC_AMOUNT_CHARACTER : Nat := 65
def CC_AMOUNT_MOVEMENT : Nat := 67
def CC_AMOUNT_DIFFUSION : Nat := 69
def CC_AMOUNT_TEXTURE : Nat := 71
def CC_SENSITIVITY : Nat := 72
def CC_DRIFT_MOVEMENT : Nat := 74
def CC_DRIFT_DIFFUSION : Nat := 76
def CC_OUTPUT_LEVEL : Nat := 78
def CC_EFFECT_VOL_CHARACTER : Nat := 73
def CC_EFFECT_VOL_MOVEMENT : Nat := 75
def CC_EFFECT_VOL_DIFFUSION : Nat := 77
def CC_EFFECT_VOL_TEXTURE : Nat := 79
def CC_CHARACTER_MODULE : Nat := 16
def CC_MOVEMENT_MODULE : Nat := 17
def CC_DIFFUSION_MODULE : Nat := 18
def CC_TEXTURE_MODULE : Nat := 19
def CC_STANDARD_BYPASS : Nat := 91
def CC_DUAL_BYPASS : Nat := 92
def CC_CHARACTER_BYPASS : Nat := 103
def CC_MOVEMENT_BYPASS : Nat := 104
def CC_DIFFUSION_BYPASS : Nat := 105
def CC_TEXTURE_BYPASS : Nat := 106
def CC_GESTURE_PLAY_REC : Nat := 80
def CC_GESTURE_STOP_ERASE : Nat := 81
def CC_CAPTURE : Nat := 82
def CC_CAPTURE_ROUTING : Nat := 83
def CC_TAP_TEMPO_CHROMA : Nat := 93
def CC_FILTER_MODE : Nat := 84
def CC_CALIBRATION_LEVEL : Nat := 94
def CC_CALIBRATION_ENTER : Nat := 95

/-- ChromaConsoleState::to_cc_map (mapper.rs), as an association list in the
source insertion order. Bypass uses the inverted convention documented in the
source: Bypass sends 127, Engaged sends 0, DualBypass sends 48 on CC 91. -/
def ChromaConsoleState.to_cc_map (s : ChromaConsoleState) : List (Nat × Nat) :=
  [ (CC_TILT, s.tilt)
  , (CC_RATE, s.rate)
  , (CC_TIME, s.time)
  , (CC_MIX, s.mix)
  , (CC_AMOUNT_CHARACTER, s.amount_character)
  , (CC_AMOUNT_MOVEMENT, s.amount_movement)
  , (CC_AMOUNT_DIFFUSION, s.amount_diffusion)
  , (CC_AMOUNT_TEXTURE, s.amount_texture)
  , (CC_SENSITIVITY, s.sensitivity)
  , (CC_DRIFT_MOVEMENT, s.drift_movement)
  , (CC_DRIFT_DIFFUSION, s.drift_diffusion)
  , (CC_OUTPUT_LEVEL, s.output_level)
  , (CC_EFFECT_VOL_CHARACTER, s.effect_vol_character)
  , (CC_EFFECT_VOL_MOVEMENT, s.effect_vol_movement)
  , (CC_EFFECT_VOL_DIFFUSION, s.effect_vol_diffusion)
  , (CC_EFFECT_VOL_TEXTURE, s.effect_vol_texture)
  , (CC_CHARACTER_MODULE, s.character_module.to_cc_value)
  , (CC_MOVEMENT_MODULE, s.movement_module.to_cc_value)
  , (CC_DIFFUSION_MODULE, s.diffusion_module.to_cc_value)
  , (CC_TEXTURE_MODULE, s.texture_module.to_cc_value)
  , (CC_STANDARD_BYPASS,
      match s.bypass_state with
      | .Bypass => 127
      | .Engaged => 0
      | .DualBypass => 48)
  , (CC_CHARACTER_BYPASS, if s.character_bypass then 0 else 127)
  , (CC_MOVEMENT_BYPASS, if s.movement_bypass then 0 else 127)
  , (CC_DIFFUSION_BYPASS, if s.diffusion_bypass then 0 else 127)
  , (CC_TEXTURE_BYPASS, if s.texture_bypass then 0 else 127)
  , (CC_GESTURE_PLAY_REC, s.gesture_mode.to_cc_value)
  , (CC_CAPTURE, s.capture_mode.to_cc_value)
  , (CC_CAPTURE_ROUTING, s.capture_routing.to_cc_value)
  , (CC_FILTER_MODE, s.filter_mode.to_cc_value)
  , (CC_CALIBRATION_LEVEL, s.calibration_level.to_cc_value) ]

/-- ChromaConsoleState::update_from_cc (mapper.rs). CC 91 splits two ways at
64 with inverted polarity; CC 92 splits three ways (0-31 Engaged, 32-63
DualBypass, 64-127 Bypass); unknown CC numbers are ignored. -/
def ChromaConsoleState.update_from_cc (s : ChromaConsoleState) (cc value : Nat) :
    ChromaConsoleState :=
  if cc = CC_TILT then { s with tilt := value }
  else if cc = CC_RATE then { s with rate := value }
  else if cc = CC_TIME then { s with time := value }
  else if cc = CC_MIX then { s with mix := value }
  else if cc = CC_AMOUNT_CHARACTER then { s with amount_character := value }
  else if cc = CC_AMOUNT_MOVEMENT then { s with amount_movement := value }
  else if cc = CC_AMOUNT_DIFFUSION then { s with amount_diffusion := value }
  else if cc = CC_AMOUNT_TEXTURE then { s with amount_texture := value }
  else if cc = CC_SENSITIVITY then { s with sensitivity := value }
  else if cc = CC_DRIFT_MOVEMENT then { s with drift_movement := value }
  else if cc = CC_DRIFT_DIFFUSION then { s with drift_diffusion := value }
  else if cc = CC_OUTPUT_LEVEL then { s with output_level := value }
  else if cc = CC_EFFECT_VOL_CHARACTER then { s with effect_vol_character := value }
  else if cc = CC_EFFECT_VOL_MOVEMENT then { s with effect_vol_movement := value }
  else if cc = CC_EFFECT_VOL_DIFFUSION then { s with effect_vol_diffusion := value }
  else if cc = CC_EFFECT_VOL_TEXTURE then { s with effect_vol_texture := value }
  else if cc = CC_CHARACTER_MODULE then
    { s with character_module := ChromaCharacterModule.from_cc_value value }
  else if cc = CC_MOVEMENT_MODULE then
    { s with movement_module := MovementModule.from_cc_value value }
  else if cc = CC_DIFFUSION_MODULE then
    { s with diffusion_module := DiffusionModule.from_cc_value value }
  else if cc = CC_TEXTURE_MODULE then
    { s with texture_module := TextureModule.from_cc_value value }
  else if cc = CC_STANDARD_BYPASS then
    { s with bypass_state := if value < 64 then .Engaged else .Bypass }
  else if cc = CC_DUAL_BYPASS then
    { s with bypass_state :=
        if value ≤ 31 then .Engaged
        else if value ≤ 63 then .DualBypass
        else .Bypass }
  else if cc = CC_CHARACTER_BYPASS then { s with character_bypass := value < 64 }
  else if cc = CC_MOVEMENT_BYPASS then { s with movement_bypass := value < 64 }
  else if cc = CC_DIFFUSION_BYPASS then { s with diffusion_bypass := value < 64 }
  else if cc = CC_TEXTURE_BYPASS then { s with texture_bypass := value < 64 }
  else if cc = CC_GESTURE_PLAY_REC then
    { s with gesture_mode := GestureMode.from_cc_value value }
  else if cc = CC_CAPTURE then
    { s with capture_mode := CaptureMode.from_cc_value value }
  else if cc = CC_CAPTURE_ROUTING then
    { s with capture_routing := CaptureRouting.from_cc_value value }
  else if cc = CC_FILTER_MODE then
    { s with filter_mode := FilterMode.from_cc_value value }
  else if cc = CC_CALIBRATION_LEVEL then
    { s with calibration_level := CalibrationLevel.from_cc_value value }
  else s

/-- ChromaConsole aggregate (mod.rs). -/
structure ChromaConsole where
  state : ChromaConsoleState
  midi_channel : Nat
deriving DecidableEq, Repr

def ChromaConsole.new (midi_channel : Nat) : ChromaConsole :=
  ⟨ChromaConsoleState.default, midi_channel⟩

inductive ChromaConsoleParameter where
  | Tilt (v : Nat)
  | Rate (v : Nat)
  | Time (v : Nat)
  | Mix (v : Nat)
  | AmountCharacter (v : Nat)
  | AmountMovement (v : Nat)
  | AmountDiffusion (v : Nat)
  | AmountTexture (v : Nat)
  | Sensitivity (v : Nat)
  | DriftMovement (v : Nat)
  | DriftDiffusion (v : Nat)
  | OutputLevel (v : Nat)
  | EffectVolCharacter (v : Nat)
  | EffectVolMovement (v : Nat)
  | EffectVolDiffusion (v : Nat)
  | EffectVolTexture (v : Nat)
  | CharacterModuleSel (v : ChromaCharacterModule)
  | MovementModuleSel (v : MovementModule)
  | DiffusionModuleSel (v : DiffusionModule)
  | TextureModuleSel (v : TextureModule)
  | BypassStateParam (v : BypassState)
  | CharacterBypass (v : Bool)
  | MovementBypass (v : Bool)
  | DiffusionBypass (v : Bool)
  | TextureBypass (v : Bool)
  | GestureModeParam (v : GestureMode)
  | GestureStop
  | CaptureModeParam (v : CaptureMode)
  | CaptureRoutingParam (v : CaptureRouting)
  | TapTempo
  | FilterModeParam (v : FilterMode)
  | CalibrationLevelParam (v : CalibrationLevel)
  | CalibrationEnter (v : Bool)
deriving DecidableEq, Repr

def ChromaConsoleParameter.cc_number : ChromaConsoleParameter → Nat
  | .Tilt _ => CC_TILT
  | .Rate _ => CC_RATE
  | .Time _ => CC_TIME
  | .Mix _ => CC_MIX
  | .AmountCharacter _ => CC_AMOUNT_CHARACTER
  | .AmountMovement _ => CC_AMOUNT_MOVEMENT
  | .AmountDiffusion _ => CC_AMOUNT_DIFFUSION
  | .AmountTexture _ => CC_AMOUNT_TEXTURE
  | .Sensitivity _ => CC_SENSITIVITY
  | .DriftMovement _ => CC_DRIFT_MOVEMENT
  | .DriftDiffusion _ => CC_DRIFT_DIFFUSION
  | .OutputLevel _ => CC_OUTPUT_LEVEL
  | .EffectVolCharacter _ => CC_EFFECT_VOL_CHARACTER
  | .EffectVolMovement _ => CC_EFFECT_VOL_MOVEMENT
  | .EffectVolDiffusion _ => CC_EFFECT_VOL_DIFFUSION
  | .EffectVolTexture _ => CC_EFFECT_VOL_TEXTURE
  | .CharacterModuleSel _ => CC_CHARACTER_MODULE
  | .MovementModuleSel _ => CC_MOVEMENT_MODULE
  | .DiffusionModuleSel _ => CC_DIFFUSION_MODULE
  | .TextureModuleSel _ => CC_TEXTURE_MODULE
  | .BypassStateParam _ => CC_STANDARD_BYPASS
  | .CharacterBypass _ => CC_CHARACTER_BYPASS
  | .MovementBypass _ => CC_MOVEMENT_BYPASS
  | .DiffusionBypass _ => CC_DIFFUSION_BYPASS
  | .TextureBypass _ => CC_TEXTURE_BYPASS
  | .GestureModeParam _ => CC_GESTURE_PLAY_REC
  | .GestureStop => CC_GESTURE_STOP_ERASE
  | .CaptureModeParam _ => CC_CAPTURE
  | .CaptureRoutingParam _ => CC_CAPTURE_ROUTING
  | .TapTempo => CC_TAP_TEMPO_CHROMA
  | .FilterModeParam _ => CC_FILTER_MODE
  | .CalibrationLevelParam _ => CC_CALIBRATION_LEVEL
  | .CalibrationEnter _ => CC_CALIBRATION_ENTER

/-- ChromaConsoleParameter::cc_value (mapper.rs). The overall bypass encodes
with inverted logic: Bypass sends 127, Engaged sends 0, DualBypass sends 48;
module bypasses send 0 when bypassed and 127 when engaged. -/
def ChromaConsoleParameter.cc_value : ChromaConsoleParameter → Nat
  | .Tilt v | .Rate v | .Time v | .Mix v
  | .AmountCharacter v | .AmountMovement v | .AmountDiffusion v | .AmountTexture v
  | .Sensitivity v | .DriftMovement v | .DriftDiffusion v | .OutputLevel v
  | .EffectVolCharacter v | .EffectVolMovement v | .EffectVolDiffusion v
  | .EffectVolTexture v => v
  | .CharacterModuleSel m => m.to_cc_value
  | .MovementModuleSel m => m.to_cc_value
  | .DiffusionModuleSel m => m.to_cc_value
  | .TextureModuleSel m => m.to_cc_value
  | .BypassStateParam s =>
      match s with
      | .Bypass => 127
      | .Engaged => 0
      | .DualBypass => 48
  | .CharacterBypass b | .MovementBypass b | .DiffusionBypass b
  | .TextureBypass b => if b then 0 else 127
  | .CalibrationEnter b => if b then 127 else 0
  | .GestureModeParam m => m.to_cc_value
  | .CaptureModeParam m => m.to_cc_value
  | .CaptureRoutingParam r => r.to_cc_value
  | .FilterModeParam m => m.to_cc_value
  | .CalibrationLevelParam l => l.to_cc_value
  | .GestureStop | .TapTempo => 127

-- ===========================================================================
-- Preamp MK II state and mapper (pedals/preamp_mk2)
-- ===========================================================================

inductive Jump where
  | Off | Zero | Five
deriving DecidableEq, Repr, Fintype

def Jump.to_cc_value : Jump → Nat
  | .Off => 1
  | .Zero => 2
  | .Five => 3

inductive MidsPosition where
  | Off | Pre | Post
deriving DecidableEq, Repr, Fintype

def MidsPosition.to_cc_value : MidsPosition → Nat
  | .Off => 1
  | .Pre => 2
  | .Post => 3

inductive QResonance where
  | Low | Mid | High
deriving DecidableEq, Repr, Fintype

def QResonance.to_cc_value : QResonance → Nat
  | .Low => 1
  | .Mid => 2
  | .High => 3

inductive DiodeClipping where
  | Off | Silicon | Germanium
deriving DecidableEq, Repr, Fintype

def DiodeClipping.to_cc_value : DiodeClipping → Nat
  | .Off => 1
  | .Silicon => 2
  | .Germanium => 3

inductive FuzzMode where
  | Off | Open | Gated
deriving DecidableEq, Repr, Fintype

def FuzzMode.to_cc_value : FuzzMode → Nat
  | .Off => 1
  | .Open => 2
  | .Gated => 3

structure PreampMk2State where
  volume : Nat
  treble : Nat
  mids : Nat
  frequency : Nat
  bass : Nat
  gain : Nat
  jump : Jump
  mids_position : MidsPosition
  q_resonance : QResonance
  diode_clipping : DiodeClipping
  fuzz_mode : FuzzMode
  expression : Nat
  bypass : Bool
deriving DecidableEq, Repr

def PreampMk2State.default : PreampMk2State where
  volume := 64
  treble := 64
  mids := 64
  frequency := 64
  bass := 64
  gain := 64
  jump := .Off
  mids_position := .Post
  q_resonance := .Mid
  diode_clipping := .Off
  fuzz_mode := .Off
  expression := 0
  bypass := false

/-- CC constants from preamp_mk2/mapper.rs. -/
def CC_VOLUME : Nat := 14
def CC_TREBLE : Nat := 15
def CC_MIDS : Nat := 16
def CC_FREQUENCY : Nat := 17
def CC_BASS : Nat := 18
def CC_GAIN : Nat := 19
def CC_JUMP : Nat := 22
def CC_MIDS_POSITION : Nat := 23
def CC_Q_RESONANCE : Nat := 24
def CC_DIODE_CLIPPING : Nat := 25
def CC_FUZZ_MODE : Nat := 26
def CC_PRESET_SAVE : Nat := 27
def CC_EXPRESSION : Nat := 100
def CC_BYPASS : Nat := 102

/-- PreampMk2State::to_cc_map (mapper.rs). CC_EXPRESSION (100) and CC_BYPASS
(102) are intentionally left out of the recall map by the source. -/
def PreampMk2State.to_cc_map (s : PreampMk2State) : List (Nat × Nat) :=
  [ (CC_VOLUME, s.volume)
  , (CC_TREBLE, s.treble)
  , (CC_MIDS, s.mids)
  , (CC_FREQUENCY, s.frequency)
  , (CC_BASS, s.bass)
  , (CC_GAIN, s.gain)
  , (CC_JUMP, s.jump.to_cc_value)
  , (CC_MIDS_POSITION, s.mids_position.to_cc_value)
  , (CC_Q_RESONANCE, s.q_resonance.to_cc_value)
  , (CC_DIODE_CLIPPING, s.diode_clipping.to_cc_value)
  , (CC_FUZZ_MODE, s.fuzz_mode.to_cc_value) ]

/-- PreampMk2 aggregate (mod.rs). -/
structure PreampMk2 where
  state : PreampMk2State
  midi_channel : Nat
deriving DecidableEq, Repr

def PreampMk2.new (midi_channel : Nat) : PreampMk2 :=
  ⟨PreampMk2State.default, midi_channel⟩

def PreampMk2.state_as_cc_map (p : PreampMk2) : List (Nat × Nat) :=
  p.state.to_cc_map

-- ===========================================================================
-- Identity Reply parsing (src/tauri/src/midi/identity.rs)
-- ===========================================================================

/-- Parsed Identity Reply (identity.rs DeviceIdentity). -/
structure DeviceIdentity where
  manufacturer_id : List Nat
  device_family : Nat
  device_model : Nat
  software_version : List Nat
deriving DecidableEq, Repr

/-- Tail of parse_identity_reply from the family field on: family at pos and
pos+1 and model at pos+2 and pos+3 are little-endian 14-bit values (MSB
shifted left 7, or-ed with LSB), then the version bytes run until the
terminating 0xF7. -/
def parse_identity_tail (message : List Nat) (manufacturer_id : List Nat) (pos : Nat) :
    Except String DeviceIdentity :=
  if message.length < pos + 2 then .error "Truncated device family"
  else if message.length < pos + 4 then .error "Truncated device model"
  else .ok ⟨manufacturer_id,
            ((message.getD (pos + 1) 0) <<< 7) ||| (message.getD pos 0),
            ((message.getD (pos + 3) 0) <<< 7) ||| (message.getD (pos + 2) 0),
            (message.drop (pos + 4)).takeWhile (fun b => b ≠ 0xF7)⟩

/-- parse_identity_reply (identity.rs). A manufacturer byte of 0x00 starts a
3-byte extended manufacturer code; otherwise the manufacturer is that single
byte. -/
def parse_identity_reply (message : List Nat) : Except String DeviceIdentity :=
  if message.length < 11 then .error "Identity reply too short"
  else if ¬(message.getD 0 0 = 0xF0 ∧ message.getD 1 0 = 0x7E ∧
            message.getD 3 0 = 0x06 ∧ message.getD 4 0 = 0x02) then
    .error "Not a valid Identity Reply message"
  else if message.getD 5 0 = 0x00 then
    if message.length < 5 + 3 then .error "Truncated extended manufacturer ID"
    else parse_identity_tail message
          [message.getD 5 0, message.getD 6 0, message.getD 7 0] 8
  else parse_identity_tail message [message.getD 5 0] 6

-- ===========================================================================
-- MIDI manager (src/tauri/src/midi/manager.rs)
-- ===========================================================================

/-- Inbound CC event payload (manager.rs MidiCCEvent). -/
structure MidiCCEvent where
  device_name : String
  pedal_type : String
  channel : Nat
  cc_number : Nat
  value : Nat
deriving DecidableEq, Repr

/-- One entry of the per-device connection registry. The raw midir handles are
outside the model; each variant keeps the MidiConnection channel and the pedal
aggregate. The Gen Loss MKII state is not needed by any claim, so its variant
keeps only the channel. -/
inductive DeviceConnection where
  | Microcosm (midi_channel : Nat) (state : Microcosm)
  | GenLossMkii (midi_channel : Nat)
  | ChromaConsole (midi_channel : Nat) (state : ChromaConsole)
  | PreampMk2 (midi_channel : Nat) (state : PreampMk2)
deriving DecidableEq, Repr

/-- MidiManager: the name-keyed connection map (as an association list in
insertion order) and the reusable MidiOutput handle, which connect() takes
out of the Option and only puts back on the success path. -/
structure MidiManager where
  connections : List (String × DeviceConnection)
  midi_output : Option Unit
deriving DecidableEq, Repr

def MidiManager.new : MidiManager := ⟨[], some ()⟩

def lookup_connection (conns : List (String × DeviceConnection)) (device_name : String) :
    Option DeviceConnection :=
  match conns.find? (fun p => p.fst == device_name) with
  | some p => some p.snd
  | none => none

def MidiManager.contains_key (m : MidiManager) (device_name : String) : Bool :=
  (lookup_connection m.connections device_name).isSome

/-- HashMap insert for a key already checked absent: append. -/
def insert_connection (conns : List (String × DeviceConnection))
    (device_name : String) (c : DeviceConnection) : List (String × DeviceConnection) :=
  conns ++ [(device_name, c)]

/-- In-place update of the connection found under a name (the get_mut +
mutate pattern of the source). -/
def update_connection (conns : List (String × DeviceConnection))
    (device_name : String) (c : DeviceConnection) : List (String × DeviceConnection) :=
  conns.map (fun p => if p.fst == device_name then (p.fst, c) else p)

/-- Rust str::to_lowercase for the ASCII port names in play, on the char
list of the string. -/
def lower_chars (s : String) : List Char := s.data.map Char.toLower

/-- Rust str::contains: the needle occurs as a contiguous substring. -/
def chars_contain_sub (hay needle : List Char) : Bool :=
  match hay with
  | [] => needle.isEmpty
  | _ :: t => needle.isPrefixOf hay || chars_contain_sub t needle

/-- Case-insensitive substring match used by connect and setup_midi_input:
port_name.to_lowercase().contains(device_name.to_lowercase()). -/
def port_name_matches (port_name device_name : String) : Bool :=
  chars_contain_sub (lower_chars port_name) (lower_chars device_name)

/-- The environment a connect attempt runs against: the available output port
names, whether opening the found output port succeeds, and the outcome of
setup_midi_input (Ok none models both the missing-app-handle and the
no-input-port cases). -/
structure ConnectEnv where
  out_ports : List String
  open_output_ok : Bool
  input_setup : Except String (Option Unit)
deriving Repr

/-- MidiManager::connect_microcosm. Returns the manager as left behind by the
&mut self method together with the Result. The source takes self.midi_output
before resolving the port and reassigns it only on the success path, so the
DeviceNotFound / ConnectionFailed / input-setup failure paths leave
midi_output = None. -/
def connect_microcosm (env : ConnectEnv) (m : MidiManager)
    (device_name : String) (midi_channel : Nat) : MidiManager × Except MidiErr Unit :=
  if midi_channel < 1 ∨ midi_channel > 16 then
    (m, .error (.InvalidChannel midi_channel))
  else if m.contains_key device_name then
    (m, .error (.AlreadyConnected device_name))
  else
    match m.midi_output with
    | none => (m, .error (.Other "MIDI output not initialized"))
    | some _ =>
      let taken : MidiManager := { m with midi_output := none }
      match env.out_ports.find? (fun name => port_name_matches name device_name) with
      | none => (taken, .error (.DeviceNotFound device_name))
      | some _port =>
        if ¬env.open_output_ok then
          (taken, .error (.ConnectionFailed "output connect failed"))
        else
          match env.input_setup with
          | .error e => (taken, .error (.ConnectionFailed e))
          | .ok _input =>
            ({ connections :=
                 insert_connection taken.connections device_name
                   (.Microcosm midi_channel (Microcosm.new midi_channel))
             , midi_output := some () },
             .ok ())

/-- The inbound listener closure installed by setup_midi_input. It captures
only the device name, the pedal type string, the channel and the event
emitter; it discards System Real-Time bytes (status 0xF8 and above), keeps
only 3-byte-or-longer Control Change messages (status 0xB0-0xBF) on the
configured channel, and emits the raw event. -/
def midi_input_callback (device_name pedal_type : String) (midi_channel : Nat)
    (message : List Nat) : Option MidiCCEvent :=
  match message with
  | [] => none
  | status :: rest =>
    if status ≥ 0xF8 then none
    else
      match rest with
      | data1 :: data2 :: _ =>
        if status ≥ 0xB0 ∧ status ≤ 0xBF then
          let channel := (status &&& 0x0F) + 1
          if channel = midi_channel then
            some ⟨device_name, pedal_type, channel, data1, data2⟩
          else none
        else none
      | _ => none

/-- One inbound message arriving on the listener of a connected device. The
closure has no access to the manager (it owns only clones of the name, the
pedal type string and the channel), so the registry and every shadow state
are returned unchanged; the only output is the optional event. -/
def handle_inbound (m : MidiManager) (device_name pedal_type : String)
    (midi_channel : Nat) (message : List Nat) : MidiManager × Option MidiCCEvent :=
  (m, midi_input_callback device_name pedal_type midi_channel message)

/-- A wire-visible step of an outbound operation: a Control Change message, a
Program Change message, or a blocking settle delay. -/
inductive MidiAction where
  | cc (number value : Nat)
  | pc (program : Nat)
  | sleepMs (ms : Nat)
deriving DecidableEq, Repr

/-- Transport oracle: whether MidiConnection::send_cc succeeds for a given
(cc number, value) message on the open connection. -/
def SendOracle : Type := Nat → Nat → Bool

/-- Transport oracle for MidiConnection::send_program_change. -/
def PcOracle : Type := Nat → Bool

/-- MidiManager::send_microcosm_parameter: resolve the connection, send one
CC message, and only then mirror the parameter into shadow state. The emitted
action list holds the transmitted message on success and nothing on failure. -/
def send_microcosm_parameter (sendOk : SendOracle) (m : MidiManager)
    (device_name : String) (param : MicrocosmParameter) :
    MidiManager × List MidiAction × Except MidiErr Unit :=
  match lookup_connection m.connections device_name with
  | none => (m, [], .error (.NotConnected device_name))
  | some (.Microcosm ch mc) =>
    let cc_number := param.cc_number
    let cc_value := param.cc_value
    if sendOk cc_number cc_value then
      let conns :=
        update_connection m.connections device_name
          (.Microcosm ch (mc.update_state param))
      ({ m with connections := conns }, [.cc cc_number cc_value], .ok ())
    else (m, [], .error (.SendFailed "send_cc failed"))
  | some _ => (m, [], .error (.Other "Device is not a Microcosm"))

/-- MidiManager::send_microcosm_program_change: sends the supplied program
number directly (0-based, no translation) and records it via
set_current_preset. -/
def send_microcosm_program_change (pcOk : PcOracle) (m : MidiManager)
    (device_name : String) (program : Nat) :
    MidiManager × List MidiAction × Except MidiErr Unit :=
  match lookup_connection m.connections device_name with
  | none => (m, [], .error (.NotConnected device_name))
  | some (.Microcosm ch mc) =>
    if pcOk program then
      let conns :=
        update_connection m.connections device_name
          (.Microcosm ch (mc.set_current_preset program))
      ({ m with connections := conns }, [.pc program], .ok ())
    else (m, [], .error (.SendFailed "send_program_change failed"))
  | some _ => (m, [], .error (.Other "Device is not a Microcosm"))

/-- The CC loop shared by the recall operations: send entries in order, abort
at the first transport failure. Returns the transmitted prefix and the error,
if any. -/
def send_cc_sequence (sendOk : SendOracle) :
    List (Nat × Nat) → List (Nat × Nat) × Option MidiErr
  | [] => ([], none)
  | (cc, v) :: rest =>
    if sendOk cc v then
      let r := send_cc_sequence sendOk rest
      ((cc, v) :: r.1, r.2)
    else ([], some (.SendFailed "send_cc failed"))

/-- MidiManager::recall_microcosm_preset: build the CC map of the supplied
state, send every entry (20 ms apart in the source), and replace the device
shadow state with the supplied state only after the whole sequence succeeded.
On a mid-sequence failure the error is returned and the device state is left
untouched. Returns (manager, transmitted CC messages, result). -/
def recall_microcosm_preset (sendOk : SendOracle) (m : MidiManager)
    (device_name : String) (s : MicrocosmState) :
    MidiManager × List (Nat × Nat) × Except MidiErr Unit :=
  match lookup_connection m.connections device_name with
  | none => (m, [], .error (.NotConnected device_name))
  | some (.Microcosm ch _mc) =>
    let cc_map := s.to_cc_map
    let r := send_cc_sequence sendOk cc_map
    match r.2 with
    | some e => (m, r.1, .error e)
    | none =>
      let conns :=
        update_connection m.connections device_name (.Microcosm ch ⟨s, ch⟩)
      ({ m with connections := conns }, r.1, .ok ())
  | some _ => (m, [], .error (.Other "Device is not a Microcosm"))

/-- MidiManager::recall_preamp_mk2_preset, same shape as the Microcosm one. -/
def recall_preamp_mk2_preset (sendOk : SendOracle) (m : MidiManager)
    (device_name : String) (s : PreampMk2State) :
    MidiManager × List (Nat × Nat) × Except MidiErr Unit :=
  match lookup_connection m.connections device_name with
  | none => (m, [], .error (.NotConnected device_name))
  | some (.PreampMk2 ch _pm) =>
    let cc_map := s.to_cc_map
    let r := send_cc_sequence sendOk cc_map
    match r.2 with
    | some e => (m, r.1, .error e)
    | none =>
      let conns :=
        update_connection m.connections device_name (.PreampMk2 ch ⟨s, ch⟩)
      ({ m with connections := conns }, r.1, .ok ())
  | some _ => (m, [], .error (.Other "Device is not a Preamp MK II"))

-- ===========================================================================
-- save_preset_to_bank, Microcosm branch (src/tauri/src/commands.rs)
-- ===========================================================================

/-- Rust u8 wrapping subtraction of 1, as performed by the release build for
bank_number - 1 (the debug build panics instead when it underflows). -/
def u8_sub_one (b : Nat) : Nat := (b + 255) % 256

/-- Whether bank_number - 1 underflows in u8 arithmetic. -/
def u8_sub_one_underflows (b : Nat) : Bool := b == 0

/-- The Microcosm branch of save_preset_to_bank: Copy (CC 45), settle 1000 ms,
Program Change to bank_number - 1, settle 1000 ms, Save/Paste (CC 46), settle
1000 ms. Each failing step returns early without its settle sleep. Returns
(manager, actions emitted in order, result). -/
def save_preset_to_bank_microcosm (sendOk : SendOracle) (pcOk : PcOracle)
    (m : MidiManager) (device_name : String) (bank_number : Nat) :
    MidiManager × List MidiAction × Except MidiErr Unit :=
  let midi_program := u8_sub_one bank_number
  match send_microcosm_parameter sendOk m device_name .PresetCopy with
  | (m1, acts1, .error e) => (m1, acts1, .error e)
  | (m1, acts1, .ok ()) =>
    let acts1 := acts1 ++ [.sleepMs 1000]
    match send_microcosm_program_change pcOk m1 device_name midi_program with
    | (m2, acts2, .error e) => (m2, acts1 ++ acts2, .error e)
    | (m2, acts2, .ok ()) =>
      let acts2 := acts1 ++ acts2 ++ [.sleepMs 1000]
      match send_microcosm_parameter sendOk m2 device_name .PresetSave with
      | (m3, acts3, .error e) => (m3, acts2 ++ acts3, .error e)
      | (m3, acts3, .ok ()) => (m3, acts2 ++ acts3 ++ [.sleepMs 1000], .ok ())

-- ===========================================================================
-- Helper lemmas
-- ===========================================================================

theorem send_cc_sequence_fst (sendOk : SendOracle) (l : List (Nat × Nat)) :
    (send_cc_sequence sendOk l).1 = l.takeWhile (fun p => sendOk p.1 p.2) := by
  induction l with
  | nil => rfl
  | cons hd tl ih =>
    obtain ⟨cc, v⟩ := hd
    by_cases h : sendOk cc v = true
    · simp [send_cc_sequence, h, List.takeWhile_cons, ih]
    · simp [send_cc_sequence, h, List.takeWhile_cons]

theorem send_cc_sequence_none_iff (sendOk : SendOracle) (l : List (Nat × Nat)) :
    (send_cc_sequence sendOk l).2 = none ↔ l.all (fun p => sendOk p.1 p.2) = true := by
  induction l with
  | nil => simp [send_cc_sequence]
  | cons hd tl ih =>
    obtain ⟨cc, v⟩ := hd
    by_cases h : sendOk cc v = true
    · simp [send_cc_sequence, h, ih]
    · simp [send_cc_sequence, h]

theorem send_cc_sequence_error_shape (sendOk : SendOracle) (l : List (Nat × Nat))
    (e : MidiErr) (h : (send_cc_sequence sendOk l).2 = some e) :
    e = .SendFailed "send_cc failed" := by
  induction l with
  | nil => simp [send_cc_sequence] at h
  | cons hd tl ih =>
    obtain ⟨cc, v⟩ := hd
    by_cases hs : sendOk cc v = true
    · simp [send_cc_sequence, hs] at h
      exact ih h
    · simp [send_cc_sequence, hs] at h
      exact h.symm

theorem list_all_takeWhile {α : Type} (f q : α → Bool) (l : List α)
    (h : l.all f = true) : (l.takeWhile q).all f = true := by
  induction l with
  | nil => simp
  | cons hd tl ih =>
    simp only [List.all_cons, Bool.and_eq_true] at h
    by_cases hq : q hd = true
    · simp [List.takeWhile_cons, hq, h.1, ih h.2]
    · simp [List.takeWhile_cons, hq]

theorem list_takeWhile_of_all {α : Type} (q : α → Bool) (l : List α)
    (h : l.all q = true) : l.takeWhile q = l := by
  induction l with
  | nil => rfl
  | cons hd tl ih =>
    simp only [List.all_cons, Bool.and_eq_true] at h
    simp [List.takeWhile_cons, h.1, ih h.2]

-- ===========================================================================
-- C7: banded enumeration round trips and band partitions
-- ===========================================================================

/-- C7: for every banded enumeration in every profile, decode(encode(v)) = v
for every enumerated value v, and the decoders are total over 0-127 with the
documented band boundaries: the six-way module selectors of the Chroma
Console use five 22-unit bands over 0-109 plus an Off band for 110-127, and
the Microcosm waveform selector uses four 32-unit bands. -/
theorem banded_enum_roundtrip_and_partition :
    (∀ v : WaveformShape, WaveformShape.from_cc_value v.to_cc_value = v) ∧
    (∀ v : PlaybackDirection, PlaybackDirection.from_cc_value v.to_cc_value = v) ∧
    (∀ v : LooperRouting, LooperRouting.from_cc_value v.to_cc_value = v) ∧
    (∀ v : SweepDirection, SweepDirection.from_cc_value v.to_cc_value = v) ∧
    (∀ v : Polarity, Polarity.from_cc_value v.to_cc_value = v) ∧
    (∀ v : DspBypassMode, DspBypassMode.from_cc_value v.to_cc_value = v) ∧
    (∀ v : TapeModel, TapeModel.from_cc_value v.to_cc_value = v) ∧
    (∀ v : ChromaCharacterModule, ChromaCharacterModule.from_cc_value v.to_cc_value = v) ∧
    (∀ v : MovementModule, MovementModule.from_cc_value v.to_cc_value = v) ∧
    (∀ v : DiffusionModule, DiffusionModule.from_cc_value v.to_cc_value = v) ∧
    (∀ v : TextureModule, TextureModule.from_cc_value v.to_cc_value = v) ∧
    (∀ v : GestureMode, GestureMode.from_cc_value v.to_cc_value = v) ∧
    (∀ v : CaptureMode, CaptureMode.from_cc_value v.to_cc_value = v) ∧
    (∀ v : CaptureRouting, CaptureRouting.from_cc_value v.to_cc_value = v) ∧
    (∀ v : FilterMode, FilterMode.from_cc_value v.to_cc_value = v) ∧
    (∀ v : CalibrationLevel, CalibrationLevel.from_cc_value v.to_cc_value = v) ∧
    (∀ v : Fin 128, ChromaCharacterModule.from_cc_value v.val =
        if v.val < 22 then .Drive
        else if v.val < 44 then .Sweeten
        else if v.val < 66 then .Fuzz
        else if v.val < 88 then .Howl
        else if v.val < 110 then .Swell
        else .Off) ∧
    (∀ v : Fin 128, MovementModule.from_cc_value v.val =
        if v.val < 22 then .Doubler
        else if v.val < 44 then .Vibrato
        else if v.val < 66 then .Phaser
        else if v.val < 88 then .Tremolo
        else if v.val < 110 then .Pitch
        else .Off) ∧
    (∀ v : Fin 128, DiffusionModule.from_cc_value v.val =
        if v.val < 22 then .Cascade
        else if v.val < 44 then .Reels
        else if v.val < 66 then .Space
        else if v.val < 88 then .Collage
        else if v.val < 110 then .Reverse
        else .Off) ∧
    (∀ v : Fin 128, TextureModule.from_cc_value v.val =
        if v.val < 22 then .Filter
        else if v.val < 44 then .Squash
        else if v.val < 66 then .Cassette
        else if v.val < 88 then .Broken
        else if v.val < 110 then .Interference
        else .Off) ∧
    (∀ v : Fin 128, WaveformShape.from_cc_value v.val =
        if v.val < 32 then .Square
        else if v.val < 64 then .Ramp
        else if v.val < 96 then .Triangle
        else .Saw) := by
  decide

-- ===========================================================================
-- C6: Chroma Console inverted bypass and dual-bypass three-way split
-- ===========================================================================

/-- Association lookup in a CC map. -/
def lookup_cc (l : List (Nat × Nat)) (cc : Nat) : Option Nat :=
  (l.find? (fun p => p.fst == cc)).map Prod.snd

/-- C6: the Chroma Console bypass is inverted: encoding Engaged yields 0 and
encoding Bypass yields 127 (both through the parameter encoder and through
the full-state CC map on CC 91), decoding 100 on the standard bypass CC
yields Bypass, and the secondary dual-bypass CC 92 decodes by a three-way
split (0-31 Engaged, 32-63 DualBypass, 64-127 Bypass). -/
theorem chroma_bypass_inversion :
    ChromaConsoleParameter.cc_value (.BypassStateParam .Engaged) = 0 ∧
    ChromaConsoleParameter.cc_value (.BypassStateParam .Bypass) = 127 ∧
    lookup_cc ({ ChromaConsoleState.default with bypass_state := .Engaged }).to_cc_map
      CC_STANDARD_BYPASS = some 0 ∧
    lookup_cc ({ ChromaConsoleState.default with bypass_state := .Bypass }).to_cc_map
      CC_STANDARD_BYPASS = some 127 ∧
    (ChromaConsoleState.default.update_from_cc CC_STANDARD_BYPASS 100).bypass_state
      = .Bypass ∧
    (ChromaConsoleState.default.update_from_cc CC_DUAL_BYPASS 10).bypass_state
      = .Engaged ∧
    (ChromaConsoleState.default.update_from_cc CC_DUAL_BYPASS 48).bypass_state
      = .DualBypass ∧
    (ChromaConsoleState.default.update_from_cc CC_DUAL_BYPASS 100).bypass_state
      = .Bypass ∧
    (∀ v : Fin 128,
      (ChromaConsoleState.default.update_from_cc CC_DUAL_BYPASS v.val).bypass_state =
        if v.val ≤ 31 then .Engaged
        else if v.val ≤ 63 then .DualBypass
        else .Bypass) := by
  decide

-- ===========================================================================
-- C4: expression and bypass CCs excluded from Preamp MK II recall
-- ===========================================================================

/-- C4: for every Preamp MK II state, the recall CC map never contains the
expression CC (100) or the bypass CC (102), and consequently the messages
actually transmitted by recall_preamp_mk2_preset never include those CC
numbers, for any manager, device and transport outcome. -/
theorem preamp_recall_excludes_expression_and_bypass :
    ∀ (s : PreampMk2State),
      s.to_cc_map.all (fun p => p.1 != 100 && p.1 != 102) = true ∧
      ∀ (sendOk : SendOracle) (m : MidiManager) (d : String),
        ((recall_preamp_mk2_preset sendOk m d s).2.1).all
          (fun p => p.1 != 100 && p.1 != 102) = true := by
  intro s
  have hmap : s.to_cc_map.all (fun p => p.1 != 100 && p.1 != 102) = true := by
    simp [PreampMk2State.to_cc_map, CC_VOLUME, CC_TREBLE, CC_MIDS, CC_FREQUENCY,
      CC_BASS, CC_GAIN, CC_JUMP, CC_MIDS_POSITION, CC_Q_RESONANCE,
      CC_DIODE_CLIPPING, CC_FUZZ_MODE]
  refine ⟨hmap, ?_⟩
  intro sendOk m d
  unfold recall_preamp_mk2_preset
  cases hconn : lookup_connection m.connections d with
  | none => simp
  | some c =>
    cases c with
    | Microcosm ch mc => simp
    | GenLossMkii ch => simp
    | ChromaConsole ch cc => simp
    | PreampMk2 ch pm =>
      simp only []
      cases hr : (send_cc_sequence sendOk s.to_cc_map).2 with
      | some e =>
        simp only [hr]
        rw [send_cc_sequence_fst]
        exact list_all_takeWhile _ _ _ hmap
      | none =>
        simp only [hr]
        rw [send_cc_sequence_fst]
        exact list_all_takeWhile _ _ _ hmap

-- ===========================================================================
-- C9: identity reply parsing
-- ===========================================================================

deriving instance DecidableEq for Except

theorem parse_identity_tail_manufacturer (message mfg : List Nat) (pos : Nat)
    (ident : DeviceIdentity) (h : parse_identity_tail message mfg pos = .ok ident) :
    ident.manufacturer_id = mfg := by
  unfold parse_identity_tail at h
  split at h
  · exact absurd h (by simp)
  · split at h
    · exact absurd h (by simp)
    · simp only [Except.ok.injEq] at h
      rw [← h]

/-- C9: the 13-byte single-manufacturer reply decodes to manufacturer 0x41,
family 128 and model 256 (14-bit little-endian fields); the 15-byte extended
reply decodes to the 3-byte manufacturer 00 01 02; and in general every
successfully parsed reply whose manufacturer byte is 0x00 gets the 3-byte
manufacturer starting at byte 5. -/
theorem identity_reply_parsing :
    parse_identity_reply
        [0xF0, 0x7E, 0x00, 0x06, 0x02, 0x41, 0x00, 0x01, 0x00, 0x02, 0x00, 0x00, 0xF7]
      = .ok ⟨[0x41], 128, 256, [0x00, 0x00]⟩ ∧
    parse_identity_reply
        [0xF0, 0x7E, 0x00, 0x06, 0x02, 0x00, 0x01, 0x02, 0x00, 0x01, 0x00, 0x02, 0x00, 0x00, 0xF7]
      = .ok ⟨[0x00, 0x01, 0x02], 128, 256, [0x00, 0x00]⟩ ∧
    ∀ (message : List Nat) (ident : DeviceIdentity),
      parse_identity_reply message = .ok ident →
      message.getD 5 0 = 0x00 →
      ident.manufacturer_id = [message.getD 5 0, message.getD 6 0, message.getD 7 0] := by
  refine ⟨by decide, by decide, ?_⟩
  intro message ident h hmfg
  unfold parse_identity_reply at h
  by_cases hl : message.length < 11
  · rw [if_pos hl] at h
    exact Except.noConfusion h
  rw [if_neg hl] at h
  by_cases hh : message.getD 0 0 = 0xF0 ∧ message.getD 1 0 = 0x7E ∧
      message.getD 3 0 = 0x06 ∧ message.getD 4 0 = 0x02
  · rw [if_neg (not_not_intro hh)] at h
    rw [if_pos hmfg] at h
    by_cases hl8 : message.length < 5 + 3
    · rw [if_pos hl8] at h
      exact Except.noConfusion h
    · rw [if_neg hl8] at h
      exact parse_identity_tail_manufacturer _ _ _ _ h
  · rw [if_pos hh] at h
    exact Except.noConfusion h

/-- Witness for the general extended-manufacturer clause of
identity_reply_parsing, at the concrete extended reply. -/
theorem identity_reply_parsing_witness :
    parse_identity_reply
        [0xF0, 0x7E, 0x00, 0x06, 0x02, 0x00, 0x01, 0x02, 0x00, 0x01, 0x00, 0x02, 0x00, 0x00, 0xF7]
      = .ok ⟨[0x00, 0x01, 0x02], 128, 256, [0x00, 0x00]⟩ ∧
    (⟨[0x00, 0x01, 0x02], 128, 256, [0x00, 0x00]⟩ : DeviceIdentity).manufacturer_id
      = [0x00, 0x01, 0x02] :=
  ⟨identity_reply_parsing.2.1,
   identity_reply_parsing.2.2 _ _ identity_reply_parsing.2.1 (by decide)⟩

-- ===========================================================================
-- C3: recall_preset sends one CC per map entry and is transactional on the
-- shadow state
-- ===========================================================================

theorem recall_microcosm_spec (sendOk : SendOracle) (m : MidiManager) (d : String)
    (ch : Nat) (mc : Microcosm) (s : MicrocosmState)
    (hconn : lookup_connection m.connections d = some (.Microcosm ch mc)) :
    ((recall_microcosm_preset sendOk m d s).2.1
        = s.to_cc_map.takeWhile (fun p => sendOk p.1 p.2)) ∧
    ((recall_microcosm_preset sendOk m d s).2.2 = .ok ()
        ↔ s.to_cc_map.all (fun p => sendOk p.1 p.2) = true) ∧
    ((recall_microcosm_preset sendOk m d s).2.2 = .ok () →
        (recall_microcosm_preset sendOk m d s).2.1 = s.to_cc_map ∧
        (recall_microcosm_preset sendOk m d s).1 =
          { m with connections :=
              update_connection m.connections d (.Microcosm ch ⟨s, ch⟩) }) ∧
    (∀ e, (recall_microcosm_preset sendOk m d s).2.2 = .error e →
        (recall_microcosm_preset sendOk m d s).1 = m ∧
        e = MidiErr.SendFailed "send_cc failed") := by
  cases hr : (send_cc_sequence sendOk s.to_cc_map).2 with
  | none =>
    have hres : recall_microcosm_preset sendOk m d s =
        ({ m with connections :=
             update_connection m.connections d (.Microcosm ch ⟨s, ch⟩) },
         (send_cc_sequence sendOk s.to_cc_map).1, .ok ()) := by
      simp [recall_microcosm_preset, hconn, hr]
    have hall : s.to_cc_map.all (fun p => sendOk p.1 p.2) = true :=
      (send_cc_sequence_none_iff sendOk s.to_cc_map).mp hr
    rw [hres]
    refine ⟨by rw [send_cc_sequence_fst], by simp [hall], ?_, by simp⟩
    intro _
    exact ⟨by rw [send_cc_sequence_fst]; exact list_takeWhile_of_all _ _ hall, rfl⟩
  | some e0 =>
    have hres : recall_microcosm_preset sendOk m d s =
        (m, (send_cc_sequence sendOk s.to_cc_map).1, .error e0) := by
      simp [recall_microcosm_preset, hconn, hr]
    have hne : ¬ (s.to_cc_map.all (fun p => sendOk p.1 p.2) = true) := by
      intro hall
      rw [(send_cc_sequence_none_iff sendOk s.to_cc_map).mpr hall] at hr
      exact Option.noConfusion hr
    have he0 : e0 = MidiErr.SendFailed "send_cc failed" :=
      send_cc_sequence_error_shape _ _ _ hr
    rw [hres]
    refine ⟨by rw [send_cc_sequence_fst], by simp [hne], by simp, ?_⟩
    intro e he
    simp only [Except.error.injEq] at he
    exact ⟨rfl, by rw [← he]; exact he0⟩

theorem recall_preamp_spec (sendOk : SendOracle) (m : MidiManager) (d : String)
    (ch : Nat) (pm : PreampMk2) (s : PreampMk2State)
    (hconn : lookup_connection m.connections d = some (.PreampMk2 ch pm)) :
    ((recall_preamp_mk2_preset sendOk m d s).2.1
        = s.to_cc_map.takeWhile (fun p => sendOk p.1 p.2)) ∧
    ((recall_preamp_mk2_preset sendOk m d s).2.2 = .ok ()
        ↔ s.to_cc_map.all (fun p => sendOk p.1 p.2) = true) ∧
    ((recall_preamp_mk2_preset sendOk m d s).2.2 = .ok () →
        (recall_preamp_mk2_preset sendOk m d s).2.1 = s.to_cc_map ∧
        (recall_preamp_mk2_preset sendOk m d s).1 =
          { m with connections :=
              update_connection m.connections d (.PreampMk2 ch ⟨s, ch⟩) }) ∧
    (∀ e, (recall_preamp_mk2_preset sendOk m d s).2.2 = .error e →
        (recall_preamp_mk2_preset sendOk m d s).1 = m ∧
        e = MidiErr.SendFailed "send_cc failed") := by
  cases hr : (send_cc_sequence sendOk s.to_cc_map).2 with
  | none =>
    have hres : recall_preamp_mk2_preset sendOk m d s =
        ({ m with connections :=
             update_connection m.connections d (.PreampMk2 ch ⟨s, ch⟩) },
         (send_cc_sequence sendOk s.to_cc_map).1, .ok ()) := by
      simp [recall_preamp_mk2_preset, hconn, hr]
    have hall : s.to_cc_map.all (fun p => sendOk p.1 p.2) = true :=
      (send_cc_sequence_none_iff sendOk s.to_cc_map).mp hr
    rw [hres]
    refine ⟨by rw [send_cc_sequence_fst], by simp [hall], ?_, by simp⟩
    intro _
    exact ⟨by rw [send_cc_sequence_fst]; exact list_takeWhile_of_all _ _ hall, rfl⟩
  | some e0 =>
    have hres : recall_preamp_mk2_preset sendOk m d s =
        (m, (send_cc_sequence sendOk s.to_cc_map).1, .error e0) := by
      simp [recall_preamp_mk2_preset, hconn, hr]
    have hne : ¬ (s.to_cc_map.all (fun p => sendOk p.1 p.2) = true) := by
      intro hall
      rw [(send_cc_sequence_none_iff sendOk s.to_cc_map).mpr hall] at hr
      exact Option.noConfusion hr
    have he0 : e0 = MidiErr.SendFailed "send_cc failed" :=
      send_cc_sequence_error_shape _ _ _ hr
    rw [hres]
    refine ⟨by rw [send_cc_sequence_fst], by simp [hne], by simp, ?_⟩
    intro e he
    simp only [Except.error.injEq] at he
    exact ⟨rfl, by rw [← he]; exact he0⟩

/-- C3: preset recall on a connected Microcosm or Preamp MK II transmits the
CC-map entries in order up to the first transport failure (one CC per entry
when every send succeeds), succeeds exactly when every send succeeds,
replaces the device shadow state with the supplied state only in that case,
and on any transport failure returns the SendFailed error with the manager
(hence the shadow state) unmodified and the remaining sends aborted. -/
theorem recall_preset_transactional
    (sendOk : SendOracle) (m : MidiManager) (d : String)
    (ch : Nat) (mc : Microcosm) (s : MicrocosmState)
    (hconn : lookup_connection m.connections d = some (.Microcosm ch mc))
    (sendOk2 : SendOracle) (m2 : MidiManager) (d2 : String)
    (ch2 : Nat) (pm : PreampMk2) (s2 : PreampMk2State)
    (hconn2 : lookup_connection m2.connections d2 = some (.PreampMk2 ch2 pm)) :
    (((recall_microcosm_preset sendOk m d s).2.1
        = s.to_cc_map.takeWhile (fun p => sendOk p.1 p.2)) ∧
     ((recall_microcosm_preset sendOk m d s).2.2 = .ok ()
        ↔ s.to_cc_map.all (fun p => sendOk p.1 p.2) = true) ∧
     ((recall_microcosm_preset sendOk m d s).2.2 = .ok () →
        (recall_microcosm_preset sendOk m d s).2.1 = s.to_cc_map ∧
        (recall_microcosm_preset sendOk m d s).1 =
          { m with connections :=
              update_connection m.connections d (.Microcosm ch ⟨s, ch⟩) }) ∧
     (∀ e, (recall_microcosm_preset sendOk m d s).2.2 = .error e →
        (recall_microcosm_preset sendOk m d s).1 = m ∧
        e = MidiErr.SendFailed "send_cc failed")) ∧
    (((recall_preamp_mk2_preset sendOk2 m2 d2 s2).2.1
        = s2.to_cc_map.takeWhile (fun p => sendOk2 p.1 p.2)) ∧
     ((recall_preamp_mk2_preset sendOk2 m2 d2 s2).2.2 = .ok ()
        ↔ s2.to_cc_map.all (fun p => sendOk2 p.1 p.2) = true) ∧
     ((recall_preamp_mk2_preset sendOk2 m2 d2 s2).2.2 = .ok () →
        (recall_preamp_mk2_preset sendOk2 m2 d2 s2).2.1 = s2.to_cc_map ∧
        (recall_preamp_mk2_preset sendOk2 m2 d2 s2).1 =
          { m2 with connections :=
              update_connection m2.connections d2 (.PreampMk2 ch2 ⟨s2, ch2⟩) }) ∧
     (∀ e, (recall_preamp_mk2_preset sendOk2 m2 d2 s2).2.2 = .error e →
        (recall_preamp_mk2_preset sendOk2 m2 d2 s2).1 = m2 ∧
        e = MidiErr.SendFailed "send_cc failed")) :=
  ⟨recall_microcosm_spec sendOk m d ch mc s hconn,
   recall_preamp_spec sendOk2 m2 d2 ch2 pm s2 hconn2⟩

/-- Witness: recall_preset_transactional applied to a concrete manager with a
connected Microcosm and a concrete manager with a connected Preamp MK II,
under an always-succeeding transport. -/
theorem recall_preset_transactional_witness :
    ((recall_microcosm_preset (fun _ _ => true)
        ⟨[("m", .Microcosm 1 (Microcosm.new 1))], some ()⟩ "m"
        MicrocosmState.default).2.1
      = MicrocosmState.default.to_cc_map.takeWhile
          (fun p => (fun _ _ => true) p.1 p.2)) ∧
    ((recall_preamp_mk2_preset (fun _ _ => true)
        ⟨[("p", .PreampMk2 2 (PreampMk2.new 2))], some ()⟩ "p"
        PreampMk2State.default).2.1
      = PreampMk2State.default.to_cc_map.takeWhile
          (fun p => (fun _ _ => true) p.1 p.2)) :=
  ⟨(recall_preset_transactional (fun _ _ => true)
      ⟨[("m", .Microcosm 1 (Microcosm.new 1))], some ()⟩ "m" 1 (Microcosm.new 1)
      MicrocosmState.default (by decide)
      (fun _ _ => true)
      ⟨[("p", .PreampMk2 2 (PreampMk2.new 2))], some ()⟩ "p" 2 (PreampMk2.new 2)
      PreampMk2State.default (by decide)).1.1,
   (recall_preset_transactional (fun _ _ => true)
      ⟨[("m", .Microcosm 1 (Microcosm.new 1))], some ()⟩ "m" 1 (Microcosm.new 1)
      MicrocosmState.default (by decide)
      (fun _ _ => true)
      ⟨[("p", .PreampMk2 2 (PreampMk2.new 2))], some ()⟩ "p" 2 (PreampMk2.new 2)
      PreampMk2State.default (by decide)).2.1⟩

-- ===========================================================================
-- C5: Microcosm save-to-bank choreography
-- ===========================================================================

theorem lookup_update_self (conns : List (String × DeviceConnection)) (d : String)
    (c x : DeviceConnection) (h : lookup_connection conns d = some x) :
    lookup_connection (update_connection conns d c) d = some c := by
  induction conns with
  | nil => simp [lookup_connection] at h
  | cons hd tl ih =>
    obtain ⟨k, v⟩ := hd
    by_cases hk : (k == d) = true
    · simp [lookup_connection, update_connection, List.find?, hk]
    · simp only [update_connection, List.map_cons, hk, if_false, Bool.false_eq_true,
        ite_false] at ih ⊢
      simp only [lookup_connection, List.find?, hk] at h ⊢
      exact ih h

theorem send_param_success_eq (sendOk : SendOracle) (m : MidiManager) (d : String)
    (ch : Nat) (mc : Microcosm) (p : MicrocosmParameter)
    (hconn : lookup_connection m.connections d = some (.Microcosm ch mc))
    (hok : sendOk p.cc_number p.cc_value = true) :
    send_microcosm_parameter sendOk m d p =
      ({ m with connections :=
           update_connection m.connections d (.Microcosm ch (mc.update_state p)) },
       [.cc p.cc_number p.cc_value], .ok ()) := by
  simp [send_microcosm_parameter, hconn, hok]

theorem send_pc_success_eq (pcOk : PcOracle) (m : MidiManager) (d : String)
    (ch : Nat) (mc : Microcosm) (program : Nat)
    (hconn : lookup_connection m.connections d = some (.Microcosm ch mc))
    (hok : pcOk program = true) :
    send_microcosm_program_change pcOk m d program =
      ({ m with connections := update_connection m.connections d (.Microcosm ch (mc.set_current_preset program)) },
       [.pc program], .ok ()) := by
  simp [send_microcosm_program_change, hconn, hok]

/-- C5: on a connected Microcosm with a working transport, the save-to-bank
workflow emits exactly copy (CC 45), settle, Program Change to bank - 1,
settle, save/paste (CC 46), settle, in that order, for any UI bank 1-255;
whereas the plain program-change operation emits the supplied 0-based
program number unchanged. -/
theorem save_to_bank_choreography
    (sendOk : SendOracle) (pcOk : PcOracle) (m : MidiManager) (d : String)
    (ch : Nat) (mc : Microcosm) (bank program : Nat)
    (hconn : lookup_connection m.connections d = some (.Microcosm ch mc))
    (h45 : sendOk 45 127 = true) (h46 : sendOk 46 127 = true)
    (hpc : ∀ p, pcOk p = true)
    (hbank1 : 1 ≤ bank) (hbank2 : bank ≤ 255) :
    (save_preset_to_bank_microcosm sendOk pcOk m d bank).2.1 =
      [.cc 45 127, .sleepMs 1000, .pc (bank - 1), .sleepMs 1000,
       .cc 46 127, .sleepMs 1000] ∧
    (save_preset_to_bank_microcosm sendOk pcOk m d bank).2.2 = .ok () ∧
    (send_microcosm_program_change pcOk m d program).2.1 = [.pc program] := by
  have hu : u8_sub_one bank = bank - 1 := by
    unfold u8_sub_one
    omega
  have e1 := send_param_success_eq sendOk m d ch mc .PresetCopy hconn h45
  have hmc1 : mc.update_state .PresetCopy = mc := rfl
  rw [hmc1] at e1
  have hconn1 :
      lookup_connection (update_connection m.connections d (.Microcosm ch mc)) d
        = some (.Microcosm ch mc) :=
    lookup_update_self _ _ _ _ hconn
  have e2 := send_pc_success_eq pcOk
    { m with connections := update_connection m.connections d (.Microcosm ch mc) }
    d ch mc (u8_sub_one bank) hconn1 (hpc _)
  have hconn2 := lookup_update_self
    (update_connection m.connections d (.Microcosm ch mc)) d
    (.Microcosm ch (mc.set_current_preset (u8_sub_one bank))) _ hconn1
  have e3 := send_param_success_eq sendOk
    { m with connections := update_connection (update_connection m.connections d (.Microcosm ch mc)) d (.Microcosm ch (mc.set_current_preset (u8_sub_one bank))) }
    d ch (mc.set_current_preset (u8_sub_one bank)) .PresetSave hconn2 h46
  rw [hu] at e2 hconn2 e3
  refine ⟨?_, ?_, ?_⟩
  · simp only [save_preset_to_bank_microcosm, hu, e1, e2, e3]
    rfl
  · simp only [save_preset_to_bank_microcosm, hu, e1, e2, e3]
  · rw [send_pc_success_eq pcOk m d ch mc program hconn (hpc program)]

/-- Witness: the save-to-bank choreography on a concrete connected Microcosm,
bank 3, with a working transport, and the plain program change for program 7. -/
theorem save_to_bank_choreography_witness :
    (save_preset_to_bank_microcosm (fun _ _ => true) (fun _ => true)
        ⟨[("m", .Microcosm 1 (Microcosm.new 1))], some ()⟩ "m" 3).2.1 =
      [.cc 45 127, .sleepMs 1000, .pc 2, .sleepMs 1000,
       .cc 46 127, .sleepMs 1000] ∧
    (save_preset_to_bank_microcosm (fun _ _ => true) (fun _ => true)
        ⟨[("m", .Microcosm 1 (Microcosm.new 1))], some ()⟩ "m" 3).2.2 = .ok () ∧
    (send_microcosm_program_change (fun _ => true)
        ⟨[("m", .Microcosm 1 (Microcosm.new 1))], some ()⟩ "m" 7).2.1 = [.pc 7] :=
  save_to_bank_choreography (fun _ _ => true) (fun _ => true)
    ⟨[("m", .Microcosm 1 (Microcosm.new 1))], some ()⟩ "m" 1 (Microcosm.new 1) 3 7
    (by decide) rfl rfl (fun _ => rfl) (by decide) (by decide)

-- ===========================================================================
-- C10: bank_number - 1 in u8 arithmetic
-- ===========================================================================

/-- C10: the Microcosm save-to-bank branch computes the wire Program Change
number as bank_number - 1 in u8 arithmetic without validating bank_number:
for every bank 1-255 the subtraction stays in the u8 range and equals the
mathematical bank - 1, bank_number = 0 is the unique input that underflows,
and the operation goes through unvalidated at bank 0 (emitting the wrapped
program 255 under wrapping semantics). -/
theorem save_to_bank_wire_program_underflow :
    (∀ b : Nat, 1 ≤ b → b ≤ 255 →
       u8_sub_one_underflows b = false ∧ u8_sub_one b = b - 1 ∧ u8_sub_one b ≤ 255) ∧
    u8_sub_one_underflows 0 = true ∧
    u8_sub_one 0 = 255 ∧
    (∀ b : Nat, u8_sub_one_underflows b = true → b = 0) ∧
    (save_preset_to_bank_microcosm (fun _ _ => true) (fun _ => true)
        ⟨[("m", .Microcosm 1 (Microcosm.new 1))], some ()⟩ "m" 0).2.1 =
      [.cc 45 127, .sleepMs 1000, .pc 255, .sleepMs 1000,
       .cc 46 127, .sleepMs 1000] := by
  refine ⟨?_, rfl, rfl, ?_, by decide⟩
  · intro b h1 h2
    refine ⟨?_, ?_, ?_⟩
    · unfold u8_sub_one_underflows
      simp only [beq_eq_false_iff_ne, ne_eq]
      omega
    · unfold u8_sub_one
      omega
    · unfold u8_sub_one
      omega
  · intro b h
    unfold u8_sub_one_underflows at h
    simpa using h

/-- Witness: the wire-program arithmetic at the concrete bank 3. -/
theorem save_to_bank_wire_program_underflow_witness :
    u8_sub_one_underflows 3 = false ∧ u8_sub_one 3 = 2 ∧ u8_sub_one 3 ≤ 255 :=
  save_to_bank_wire_program_underflow.1 3 (by decide) (by decide)

-- ===========================================================================
-- C2: inbound listener behaviour
-- ===========================================================================

/-- C2 counterexample: an on-channel 3-byte CC message on a connected Chroma
Console produces the Inbound Event but no shadow-state mutation at all: the
manager (including the device shadow state) comes back verbatim, even though
the profile decode of that CC (tilt, CC 64, value 5) would have changed the
state. This refutes the claim that the listener decodes via the profile and
updates shadow state before emitting. -/
theorem inbound_listener_no_decode_counterexample :
    (handle_inbound ⟨[("chroma", .ChromaConsole 1 (ChromaConsole.new 1))], some ()⟩
        "chroma" "ChromaConsole" 1 [0xB0, 64, 5]).1
      = ⟨[("chroma", .ChromaConsole 1 (ChromaConsole.new 1))], some ()⟩ ∧
    (handle_inbound ⟨[("chroma", .ChromaConsole 1 (ChromaConsole.new 1))], some ()⟩
        "chroma" "ChromaConsole" 1 [0xB0, 64, 5]).2
      = some ⟨"chroma", "ChromaConsole", 1, 64, 5⟩ ∧
    ChromaConsoleState.default.update_from_cc 64 5 ≠ ChromaConsoleState.default := by
  decide

/-- C2 (amended): the inbound listener never touches the registry or any
shadow state; it discards System Real-Time bytes (status 0xF8 and above) and
messages shorter than 3 bytes or of non-Control-Change status without
emitting, and for a 3-byte Control Change on the configured channel it emits
the raw Inbound Event (device name, pedal family, channel, CC number, value)
without any profile decoding; off-channel CC messages emit nothing. -/
theorem inbound_listener_filters_and_emits (m : MidiManager) (dn pt : String)
    (ch : Nat) (message : List Nat) :
    (handle_inbound m dn pt ch message).1 = m ∧
    (∀ status rest, message = status :: rest → 0xF8 ≤ status →
       (handle_inbound m dn pt ch message).2 = none) ∧
    (message.length < 3 → (handle_inbound m dn pt ch message).2 = none) ∧
    (∀ status d1 d2 rest, message = status :: d1 :: d2 :: rest → status < 0xF8 →
       ¬(0xB0 ≤ status ∧ status ≤ 0xBF) →
       (handle_inbound m dn pt ch message).2 = none) ∧
    (∀ status d1 d2 rest, message = status :: d1 :: d2 :: rest → status < 0xF8 →
       0xB0 ≤ status → status ≤ 0xBF →
       (((status &&& 0x0F) + 1 = ch →
          (handle_inbound m dn pt ch message).2 = some ⟨dn, pt, ch, d1, d2⟩) ∧
        ((status &&& 0x0F) + 1 ≠ ch →
          (handle_inbound m dn pt ch message).2 = none))) := by
  refine ⟨rfl, ?_, ?_, ?_, ?_⟩
  · rintro status rest rfl hs
    cases rest with
    | nil => simp [handle_inbound, midi_input_callback, hs]
    | cons b t =>
      cases t with
      | nil => simp [handle_inbound, midi_input_callback, hs]
      | cons c t2 => simp [handle_inbound, midi_input_callback, hs]
  · intro hlen
    match message, hlen with
    | [], _ => rfl
    | [a], _ =>
      by_cases ha : 0xF8 ≤ a
      · simp [handle_inbound, midi_input_callback, ha]
      · simp [handle_inbound, midi_input_callback, ha]
    | [a, b], _ =>
      by_cases ha : 0xF8 ≤ a
      · simp [handle_inbound, midi_input_callback, ha]
      · simp [handle_inbound, midi_input_callback, ha]
    | a :: b :: c :: t, hlen =>
      simp at hlen
      omega
  · rintro status d1 d2 rest rfl hlt hnotcc
    have h1 : ¬ (0xF8 ≤ status) := by omega
    simp [handle_inbound, midi_input_callback, h1, hnotcc]
  · rintro status d1 d2 rest rfl hlt hb0 hbf
    have h1 : ¬ (0xF8 ≤ status) := by omega
    constructor
    · intro hch
      simp [handle_inbound, midi_input_callback, h1, hb0, hbf, hch]
    · intro hch
      simp [handle_inbound, midi_input_callback, h1, hb0, hbf, hch]

/-- Witness: the amended listener behaviour at a concrete manager and
message: on-channel CC [0xB0, 10, 20] leaves the manager unchanged and emits
the raw event. -/
theorem inbound_listener_filters_and_emits_witness :
    (handle_inbound ⟨[], some ()⟩ "d" "Microcosm" 1 [0xB0, 10, 20]).1
      = ⟨[], some ()⟩ ∧
    (handle_inbound ⟨[], some ()⟩ "d" "Microcosm" 1 [0xB0, 10, 20]).2
      = some ⟨"d", "Microcosm", 1, 10, 20⟩ :=
  ⟨(inbound_listener_filters_and_emits ⟨[], some ()⟩ "d" "Microcosm" 1
      [0xB0, 10, 20]).1,
   ((inbound_listener_filters_and_emits ⟨[], some ()⟩ "d" "Microcosm" 1
      [0xB0, 10, 20]).2.2.2.2 0xB0 10 20 [] rfl (by decide) (by decide)
      (by decide)).1 (by decide)⟩

-- ===========================================================================
-- C8: shadow-state byte-range invariant
-- ===========================================================================

/-- The spec invariant on a Microcosm shadow state: every raw-byte field is a
legal MIDI data byte (0-127). Enumerated fields are inside their value sets
by construction of the Lean types, as in the Rust enums. -/
def MicrocosmState.bytes_in_range (s : MicrocosmState) : Prop :=
  s.time ≤ 127 ∧ s.activity ≤ 127 ∧ s.repeats ≤ 127 ∧ s.frequency ≤ 127 ∧
  s.depth ≤ 127 ∧ s.cutoff ≤ 127 ∧ s.resonance ≤ 127 ∧ s.mix ≤ 127 ∧
  s.volume ≤ 127 ∧ s.space ≤ 127 ∧ s.reverb_time ≤ 127 ∧ s.loop_level ≤ 127 ∧
  s.looper_speed ≤ 127 ∧ s.fade_time ≤ 127

instance (s : MicrocosmState) : Decidable s.bytes_in_range := by
  unfold MicrocosmState.bytes_in_range
  infer_instance

/-- Whether a parameter carries only legal MIDI data bytes. The Rust u8
payloads admit 128-255 and the code never validates them. -/
def MicrocosmParameter.value_in_range : MicrocosmParameter → Prop
  | .Time v | .Activity v | .Repeats v | .Frequency v | .Depth v
  | .Cutoff v | .Resonance v | .Mix v | .Volume v | .Space v
  | .ReverbTime v | .LoopLevel v | .LooperSpeed v | .FadeTime v => v ≤ 127
  | _ => True

instance (p : MicrocosmParameter) : Decidable p.value_in_range := by
  cases p <;> (dsimp only [MicrocosmParameter.value_in_range]; infer_instance)

def DeviceConnection.state_bytes_in_range : DeviceConnection → Prop
  | .Microcosm _ mc => mc.state.bytes_in_range
  | _ => True

instance (c : DeviceConnection) : Decidable c.state_bytes_in_range := by
  cases c <;> (dsimp only [DeviceConnection.state_bytes_in_range]; infer_instance)

/-- The manager-wide invariant: every connected Microcosm shadow state holds
only legal MIDI data bytes. -/
def MidiManager.microcosm_states_in_range (m : MidiManager) : Prop :=
  ∀ pr ∈ m.connections, pr.2.state_bytes_in_range

instance (m : MidiManager) : Decidable m.microcosm_states_in_range := by
  unfold MidiManager.microcosm_states_in_range
  infer_instance

/-- C8 counterexample: nothing validates the u8 payload of an outbound
parameter, so sending Time(200) to a connected Microcosm succeeds and leaves
the shadow state holding 200 > 127, breaking the claimed invariant that was
true beforehand. -/
theorem shadow_state_byte_range_counterexample :
    (⟨[("m", .Microcosm 1 (Microcosm.new 1))], some ()⟩ : MidiManager).microcosm_states_in_range ∧
    (send_microcosm_parameter (fun _ _ => true)
        ⟨[("m", .Microcosm 1 (Microcosm.new 1))], some ()⟩ "m" (.Time 200)).2.2 = .ok () ∧
    ¬ (send_microcosm_parameter (fun _ _ => true)
        ⟨[("m", .Microcosm 1 (Microcosm.new 1))], some ()⟩ "m" (.Time 200)).1.microcosm_states_in_range := by
  decide

theorem lookup_connection_mem (conns : List (String × DeviceConnection))
    (d : String) (x : DeviceConnection)
    (h : lookup_connection conns d = some x) : ∃ pr ∈ conns, pr.2 = x := by
  unfold lookup_connection at h
  cases hf : conns.find? (fun p => p.fst == d) with
  | none =>
    rw [hf] at h
    exact Option.noConfusion h
  | some pr =>
    rw [hf] at h
    refine ⟨pr, List.mem_of_find?_eq_some hf, ?_⟩
    injection h

theorem update_connection_all (conns : List (String × DeviceConnection))
    (d : String) (c : DeviceConnection)
    (hc : c.state_bytes_in_range)
    (hall : ∀ pr ∈ conns, pr.2.state_bytes_in_range) :
    ∀ pr ∈ update_connection conns d c, pr.2.state_bytes_in_range := by
  intro pr hpr
  unfold update_connection at hpr
  obtain ⟨q, hq, hqe⟩ := List.mem_map.mp hpr
  by_cases hk : (q.fst == d) = true
  · rw [if_pos hk] at hqe
    rw [← hqe]
    exact hc
  · rw [if_neg hk] at hqe
    rw [← hqe]
    exact hall q hq

theorem update_state_bytes_in_range (mc : Microcosm) (p : MicrocosmParameter)
    (h : mc.state.bytes_in_range) (hp : p.value_in_range) :
    (mc.update_state p).state.bytes_in_range := by
  cases p <;>
    simp_all [Microcosm.update_state, MicrocosmState.bytes_in_range,
      MicrocosmParameter.value_in_range]

theorem set_current_preset_bytes_in_range (mc : Microcosm) (prog : Nat)
    (h : mc.state.bytes_in_range) :
    (mc.set_current_preset prog).state.bytes_in_range := by
  unfold Microcosm.set_current_preset
  cases EffectType.from_program prog with
  | none => exact h
  | some pr =>
    obtain ⟨e, v⟩ := pr
    simp only [MicrocosmState.bytes_in_range] at h ⊢
    exact h

/-- C8 (amended): every shadow-state-mutating operation keeps enumerated
fields inside their value sets (by construction of the types) and keeps every
raw-byte field in 0-127 provided the supplied values are themselves legal
MIDI data bytes: outbound parameter send (for a parameter whose payload is at
most 127), program change (which writes only enumerated fields), preset
recall (for a supplied state already in range), and inbound handling (which
never writes shadow state) all preserve the manager-wide invariant. The
proviso is necessary: raw u8 payloads are stored unvalidated (see the
counterexample). -/
theorem shadow_state_byte_range_preserved
    (sendOk : SendOracle) (pcOk : PcOracle) (m : MidiManager) (d : String)
    (p : MicrocosmParameter) (prog : Nat) (s : MicrocosmState)
    (dn pt : String) (ch0 : Nat) (msg : List Nat)
    (hm : m.microcosm_states_in_range) (hp : p.value_in_range)
    (hs : s.bytes_in_range) :
    (send_microcosm_parameter sendOk m d p).1.microcosm_states_in_range ∧
    (send_microcosm_program_change pcOk m d prog).1.microcosm_states_in_range ∧
    (recall_microcosm_preset sendOk m d s).1.microcosm_states_in_range ∧
    (handle_inbound m dn pt ch0 msg).1.microcosm_states_in_range := by
  refine ⟨?_, ?_, ?_, hm⟩
  · unfold send_microcosm_parameter
    cases hconn : lookup_connection m.connections d with
    | none => exact hm
    | some c =>
      cases c with
      | Microcosm ch mc =>
        have hmc : mc.state.bytes_in_range := by
          obtain ⟨pr, hpr, hpe⟩ := lookup_connection_mem _ _ _ hconn
          have := hm pr hpr
          rw [hpe] at this
          exact this
        by_cases hok : sendOk p.cc_number p.cc_value = true
        · simp only [hok, if_true]
          exact update_connection_all _ _ _
            (update_state_bytes_in_range mc p hmc hp) hm
        · simp only [hok, Bool.false_eq_true, if_false]
          exact hm
      | GenLossMkii ch => exact hm
      | ChromaConsole ch cc => exact hm
      | PreampMk2 ch pm => exact hm
  · unfold send_microcosm_program_change
    cases hconn : lookup_connection m.connections d with
    | none => exact hm
    | some c =>
      cases c with
      | Microcosm ch mc =>
        have hmc : mc.state.bytes_in_range := by
          obtain ⟨pr, hpr, hpe⟩ := lookup_connection_mem _ _ _ hconn
          have := hm pr hpr
          rw [hpe] at this
          exact this
        by_cases hok : pcOk prog = true
        · simp only [hok, if_true]
          exact update_connection_all _ _ _
            (set_current_preset_bytes_in_range mc prog hmc) hm
        · simp only [hok, Bool.false_eq_true, if_false]
          exact hm
      | GenLossMkii ch => exact hm
      | ChromaConsole ch cc => exact hm
      | PreampMk2 ch pm => exact hm
  · unfold recall_microcosm_preset
    cases hconn : lookup_connection m.connections d with
    | none => exact hm
    | some c =>
      cases c with
      | Microcosm ch mc =>
        cases hr : (send_cc_sequence sendOk s.to_cc_map).2 with
        | some e =>
          simp only [hr]
          exact hm
        | none =>
          simp only [hr]
          exact update_connection_all _ _ _ hs hm
      | GenLossMkii ch => exact hm
      | ChromaConsole ch cc => exact hm
      | PreampMk2 ch pm => exact hm

/-- Witness: the amended invariant preservation at a concrete connected
Microcosm, the in-range parameter Time(100), program 5, the default recall
state, and an inbound clock byte. -/
theorem shadow_state_byte_range_preserved_witness :
    (send_microcosm_parameter (fun _ _ => true)
        ⟨[("m", .Microcosm 1 (Microcosm.new 1))], some ()⟩ "m"
        (.Time 100)).1.microcosm_states_in_range ∧
    (send_microcosm_program_change (fun _ => true)
        ⟨[("m", .Microcosm 1 (Microcosm.new 1))], some ()⟩ "m"
        5).1.microcosm_states_in_range ∧
    (recall_microcosm_preset (fun _ _ => true)
        ⟨[("m", .Microcosm 1 (Microcosm.new 1))], some ()⟩ "m"
        MicrocosmState.default).1.microcosm_states_in_range ∧
    (handle_inbound ⟨[("m", .Microcosm 1 (Microcosm.new 1))], some ()⟩
        "m" "Microcosm" 1 [0xF8]).1.microcosm_states_in_range :=
  shadow_state_byte_range_preserved (fun _ _ => true) (fun _ => true)
    ⟨[("m", .Microcosm 1 (Microcosm.new 1))], some ()⟩ "m" (.Time 100) 5
    MicrocosmState.default "m" "Microcosm" 1 [0xF8]
    (by decide) (by decide) (by decide)

-- ===========================================================================
-- C1: failed connect leaves the manager unable to connect again
-- ===========================================================================

/-- C1: evaluation of connect_microcosm at the failing input. A first connect
attempt against an environment with no matching output port fails with
DeviceNotFound but leaves midi_output = none (the source takes the handle and
only restores it on the success path). A retry against an environment where
the device is now present fails with the unrelated error "MIDI output not
initialized", while the same call from the untouched manager succeeds, and
the registry stays empty throughout. The InvalidChannel and AlreadyConnected
failures, which return before the take, leave the manager fully unchanged. -/
theorem connect_failure_leaves_stale_output :
    (connect_microcosm ⟨["Some Other Device"], true, .ok (some ())⟩
        MidiManager.new "microcosm" 1).2
      = .error (.DeviceNotFound "microcosm") ∧
    (connect_microcosm ⟨["Some Other Device"], true, .ok (some ())⟩
        MidiManager.new "microcosm" 1).1
      = ⟨[], none⟩ ∧
    (connect_microcosm ⟨["Hologram Microcosm"], true, .ok (some ())⟩
        (connect_microcosm ⟨["Some Other Device"], true, .ok (some ())⟩
          MidiManager.new "microcosm" 1).1
        "microcosm" 1).2
      = .error (.Other "MIDI output not initialized") ∧
    (connect_microcosm ⟨["Hologram Microcosm"], true, .ok (some ())⟩
        MidiManager.new "microcosm" 1).2
      = .ok () ∧
    (connect_microcosm ⟨["Hologram Microcosm"], true, .ok (some ())⟩
        MidiManager.new "microcosm" 0).1
      = MidiManager.new ∧
    (connect_microcosm ⟨["Hologram Microcosm"], true, .ok (some ())⟩
        MidiManager.new "microcosm" 0).2
      = .error (.InvalidChannel 0) ∧
    (connect_microcosm ⟨["Hologram Microcosm"], true, .ok (some ())⟩
        ⟨[("microcosm", .Microcosm 1 (Microcosm.new 1))], some ()⟩ "microcosm" 1).1
      = ⟨[("microcosm", .Microcosm 1 (Microcosm.new 1))], some ()⟩ ∧
    (connect_microcosm ⟨["Hologram Microcosm"], true, .ok (some ())⟩
        ⟨[("microcosm", .Microcosm 1 (Microcosm.new 1))], some ()⟩ "microcosm" 1).2
      = .error (.AlreadyConnected "microcosm") := by
  decide
